import Mathlib

/-!
# Verification of the Sofia chat orchestrator (`src/app.py`)

Shallow embedding of the `/chat` route of `app.py`: daily quota gating,
keyword auto-classification (`should_auto_search`), library search
(`search_library`), web search (`search_web`), and the Groq-then-Gemini
provider dispatch with one retry.  External effects (HTTP calls to the
search API and to the AI providers, the Mongo collections) are modelled
as oracle inputs, and the handler additionally produces a trace of the
observable events (counter reads/resets/increments, search calls,
provider calls) so that ordering and at-most-once properties can be
stated.

String primitives are defined by structural recursion on the character
list so that every definition evaluates inside the kernel.
-/

namespace Sofia

/-! ## String primitives (structural, kernel-evaluable) -/

/-- `listPrefix p l`: `p` is a prefix of `l`. -/
def listPrefix : List Char → List Char → Bool
  | [], _ => true
  | _ :: _, [] => false
  | a :: as, b :: bs => a = b && listPrefix as bs

/-- `hasInfix hay needle`: `needle` occurs contiguously in `hay`
(Python's `needle in hay`; the empty needle always occurs). -/
def hasInfix : List Char → List Char → Bool
  | hay, needle =>
    listPrefix needle hay ||
      match hay with
      | [] => false
      | _ :: t => hasInfix t needle

/-- Python's `needle in hay` on strings. -/
def strContains (hay needle : String) : Bool :=
  hasInfix hay.data needle.data

/-- ASCII lower-casing of a character list (Python `str.lower()` on the
ASCII texts the route manipulates). -/
def lowerL (l : List Char) : List Char := l.map Char.toLower

/-- Python `str.strip()`: drop leading and trailing whitespace. -/
def stripL (l : List Char) : List Char :=
  ((l.dropWhile Char.isWhitespace).reverse.dropWhile Char.isWhitespace).reverse

/-- Python's `s.split()` (no separator): maximal runs of non-whitespace
characters; empty tokens never appear. -/
def pySplitAux : List Char → List Char → List (List Char)
  | [], cur => if cur.isEmpty then [] else [cur.reverse]
  | c :: rest, cur =>
    if c.isWhitespace then
      if cur.isEmpty then pySplitAux rest [] else cur.reverse :: pySplitAux rest []
    else pySplitAux rest (c :: cur)

def pySplit (s : String) : List (List Char) := pySplitAux s.data []

/-- `s.lower().strip()` as used by `should_auto_search`. -/
def lowerStrip (s : String) : List Char := stripL (lowerL s.data)

/-! ## `should_auto_search` (app.py lines 847-869) -/

def security_keywords : List String :=
  ["vulnerability", "malware", "cybersecurity", "sql injection",
   "xss", "cross-site scripting", "cve-", "zero-day", "phishing",
   "ransomware", "data breach", "mitigation", "pentest", "exploit"]

def code_keywords : List String :=
  ["def ", "function ", "public class", "SELECT *", "import ", "require(",
   "const ", "let ", "var ", "<?php", "public static void", "console.log"]

def general_search_keywords : List String :=
  ["what is", "who is", "where is", "when did", "how to",
   "latest", "news", "in 2025", "in 2024",
   "explain", "summary of", "overview of", "compare"]

def chat_keywords : List String := ["hi", "hello", "how are you", "thanks", "thank you"]

/-- `should_auto_search(user_message)`: ordered keyword rules on
`msg_lower = user_message.lower().strip()`; `none` means no auto mode
(the caller keeps plain chat). -/
def should_auto_search (user_message : String) : Option String :=
  if chat_keywords.any (fun k => listPrefix k.data (lowerStrip user_message)) then none
  else if security_keywords.any (fun k => hasInfix (lowerStrip user_message) k.data) then
    some "security_search"
  else if code_keywords.any (fun k => strContains user_message k) then
    some "code_security_scan"
  else if general_search_keywords.any (fun k => hasInfix (lowerStrip user_message) k.data) then
    some "web_search"
  else if (pySplit user_message).length > 6 then some "web_search"
  else none

example : strContains "hi phishing" "phishing" = true := by decide

example : should_auto_search "hi phishing" = none := by decide

example : should_auto_search "what is phishing" = some "security_search" := by decide

example : should_auto_search "SELECT * FROM users" = some "code_security_scan" := by decide

example : should_auto_search "select * from users" = none := by decide

/-! ## `search_web` (app.py lines 797-825)

The Serper HTTP exchange is an oracle: either an exception (whose text
Python interpolates into the returned message) or a parsed JSON result
with optional `organic` and `answerBox` members. -/

structure OrganicItem where
  title : Option String
  snippet : Option String
  link : Option String
  deriving DecidableEq, Repr

structure AnswerBox where
  snippet : Option String
  answer : Option String
  deriving DecidableEq, Repr

structure SerperResults where
  organic : Option (List OrganicItem)
  answerBox : Option AnswerBox
  deriving DecidableEq, Repr

inductive SerperOutcome
  | failure (err : String)
  | ok (results : SerperResults)
  deriving DecidableEq, Repr

/-- One organic result as formatted by `search_web`. -/
def formatOrganic (it : OrganicItem) : String :=
  "Title: " ++ it.title.getD "No Title" ++ "\nSnippet: " ++ it.snippet.getD "No Snippet"
    ++ "\nSource: " ++ it.link.getD "No Link"

/-- Python truthiness of an optional string: `None` and `""` are falsy. -/
def pyTruthy (o : Option String) : Option String :=
  match o with
  | some s => if s = "" then none else some s
  | none => none

/-- `a or b` on optional strings followed by an `if answer:` truthiness
check, as in the answer-box branch. -/
def pyOrStr (a b : Option String) : Option String :=
  match pyTruthy a with
  | some s => some s
  | none => pyTruthy b

def blockSep : String := "\n\n---\n\n"

def search_web (serperKey : Bool) (_query : String) (outcome : SerperOutcome) : String :=
  if !serperKey then "Web search is disabled because the API key is not configured."
  else
    match outcome with
    | .failure e => "An error occurred during the web search: " ++ e
    | .ok results =>
      let snippets :=
        match results.organic with
        | some items => (items.take 5).map formatOrganic
        | none => []
      if !snippets.isEmpty then String.intercalate blockSep snippets
      else
        match results.answerBox with
        | some box =>
          match pyOrStr box.snippet box.answer with
          | some ans => "Direct Answer: " ++ ans
          | none => "No relevant web results found."
        | none => "No relevant web results found."

/-! ## `search_library` (app.py lines 827-845)

`if not library_collection: return None` (line 828) truth-tests the
PyMongo collection object.  `Collection.__bool__` raises
`NotImplementedError`, and the test sits OUTSIDE the function's own
try/except, so with a configured collection the call raises to the
route's outer handler (line 1016); only an unconfigured (`None`)
collection takes the `return None` path.  Either way the try-block body
(the Mongo query and the snippet formatting, lines 829-843) never runs;
it is embedded below as `search_library_body` so its semantics can
still be stated.

The body's Mongo pattern is `(?=.*k1).*(?=.*k2)...` with `$options`
`"i"` (no `s`, no `m`) in an unanchored search.  Since `.` does not
match a newline, every lookahead is confined to the line of the match
position, so the pattern holds of a text exactly when SOME SINGLE LINE
of it contains every keyword, case-insensitively (take the start of
that line as the match position).  Empty keywords produced by
`re.split(r'\s+')` on leading/trailing whitespace yield the trivially
true lookahead `(?=.*)`, so only the non-empty whitespace-separated
tokens matter and `pySplit` captures them. -/

structure LibDoc where
  filename : Option String
  extracted_text : String
  deriving DecidableEq, Repr

/-- Split a character list on newline characters, keeping empty lines. -/
def splitLinesAux : List Char → List Char → List (List Char)
  | [], cur => [cur.reverse]
  | c :: rest, cur =>
    if c = '\n' then cur.reverse :: splitLinesAux rest []
    else splitLinesAux rest (c :: cur)

def textLines (text : String) : List (List Char) := splitLinesAux text.data []

/-- All keywords occur in the given line, case-insensitively. -/
def libMatchesKeysLine (ks : List (List Char)) (line : List Char) : Bool :=
  ks.all (fun k => hasInfix (lowerL line) (lowerL k))

/-- The regex holds: some single line of the text contains every
keyword, case-insensitively. -/
def libMatchesKeys (ks : List (List Char)) (text : String) : Bool :=
  (textLines text).any (fun line => libMatchesKeysLine ks line)

/-- Some single line of the text contains every query token,
case-insensitively. -/
def libMatches (query : String) (text : String) : Bool :=
  libMatchesKeys (pySplit query) text

/-- The documents the Mongo cursor would yield: matching ones,
`.limit(3)`. -/
def libraryMatches (db : List LibDoc) (query : String) : List LibDoc :=
  (db.filter (fun d => libMatches query d.extracted_text)).take 3

/-- `snippet[:300]` on the character level. -/
def strTake (s : String) (n : Nat) : String := String.mk (s.data.take n)

def formatLibDoc (d : LibDoc) : String :=
  "Source: " ++ d.filename.getD "Untitled" ++ " (from your Library)\nSnippet: "
    ++ strTake d.extracted_text 300 ++ "..."

/-- The try-block body of `search_library` (lines 829-843): unreachable
in the real program because the truthiness guard above it either raises
or returns first. -/
def search_library_body (db : List LibDoc) (query : String) : Option String :=
  let snippets := (libraryMatches db query).map formatLibDoc
  if snippets.isEmpty then none else some (String.intercalate blockSep snippets)

def notImplementedMsg : String :=
  "NotImplementedError: Collection objects do not implement truth value testing or bool()"

/-- `search_library` as actually executed: the line 828 guard raises
for a configured collection and returns `None` for an unconfigured
one. -/
def search_library (configured : Bool) (_db : List LibDoc) (_query : String) :
    Except String (Option String) :=
  if configured then Except.error notImplementedMsg
  else Except.ok none

/-! ## Data model of the `/chat` route (app.py lines 727-1018) -/

/-- The quota-relevant fields of the user record
(`usage_counts.messages`, `usage_counts.webSearches`,
`last_usage_reset`, `isPremium`, `isAdmin`).  Dates are day numbers. -/
structure UserRec where
  isPremium : Bool
  isAdmin : Bool
  messages : Nat
  webSearches : Nat
  lastReset : Nat
  deriving DecidableEq, Repr

/-- The inbound JSON payload: `text`, `fileData`, `fileType`,
`isTemporary`, `mode`. -/
structure ChatReq where
  text : String
  fileData : Option String
  fileType : String
  isTemporary : Bool
  mode : Option String
  deriving DecidableEq, Repr

/-- One stored conversation message (`sender`, `text`). -/
structure Turn where
  sender : String
  text : String
  deriving DecidableEq, Repr

/-- A prompt part handed to Gemini: a string or a decoded image. -/
inductive Part
  | text (s : String)
  | image
  deriving DecidableEq, Repr

/-- The argument of a `generate_content` call: either
`gemini_history + [{'role': 'user', 'parts': prompt_parts}]` or the bare
`prompt_parts` list. -/
inductive GeminiArg
  | withHistory (hist : List (String × String)) (parts : List Part)
  | bare (parts : List Part)
  deriving DecidableEq, Repr

/-- Observable events of one request, in program order. -/
inductive Event
  | readUser
  | resetCounters
  | incMessages
  | incWebSearches
  | callSearchWeb (q : String)
  | callSearchLibrary (q : String)
  | callGroq (api : String)
  | callGemini (attempt : Nat) (arg : GeminiArg)
  deriving DecidableEq, Repr

/-- The HTTP result: a 200 `{'response': ...}` JSON or the 429 quota
error `{'error': ..., 'upgrade_required': True}`. -/
inductive ChatResponse
  | ok (response : String)
  | quotaError (error : String) (upgradeRequired : Bool) (status : Nat)
  deriving DecidableEq, Repr

/-- Everything outside the request that the route consults: the date,
the configured keys, the collections, and the outcomes of the external
calls (oracles). -/
structure Env where
  today : Nat
  serperKey : Bool
  groqKey : Bool
  libraryConfigured : Bool
  libraryDb : List LibDoc
  conversation : Option (List Turn)
  serperOutcome : SerperOutcome
  groqOutcome : Option String
  geminiFirst : Except String String
  geminiRetry : Except String String
  videoId : Option String
  transcript : Option String
  pdfText : String
  docxText : String
  deriving Repr

/-- `PDF_KEYWORDS = {}` (app.py line 135): configured empty. -/
def PDF_KEYWORDS : List (String × String) := []

/-- `bool(file_data)`: present and non-empty. -/
def hasFileData (req : ChatReq) : Bool :=
  match req.fileData with
  | some s => !(s = "")
  | none => false

/-- app.py line 883. -/
def is_multimodal (req : ChatReq) : Bool :=
  hasFileData req || strContains req.text "youtube.com" || strContains req.text "youtu.be"
    || PDF_KEYWORDS.any (fun kv => hasInfix (lowerL req.text.data) kv.1.data)

def dailyLimitMsg : String :=
  "You have reached your daily message limit. Please upgrade for unlimited access."

def webLimitMsg : String :=
  "You have already used your daily web search. Please upgrade for unlimited searches."

def webDisabledMsg : String := "Web search is disabled by the server administrator."

def apologyMsg : String := "Sorry, I encountered an error trying to respond."

/-! ## The request phases -/

/-- app.py lines 730-757: the daily usage limit check and reset.
Returns the early 429 response (if any), the user record as left in the
store, and the emitted events. -/
def quotaGate (user : UserRec) (today : Nat) : Option ChatResponse × UserRec × List Event :=
  if user.isPremium || user.isAdmin then (none, user, [])
  else
    let rr :=
      if user.lastReset < today then
        ({ user with messages := 0, webSearches := 0, lastReset := today },
         [Event.readUser, Event.resetCounters, Event.readUser])
      else (user, [Event.readUser])
    if rr.1.messages ≥ 15 then
      (some (ChatResponse.quotaError dailyLimitMsg true 429), rr.1, rr.2)
    else
      (none, { rr.1 with messages := rr.1.messages + 1 }, rr.2 ++ [Event.incMessages])

/-- app.py lines 885-890: auto-classification (only for explicit mode
`'chat'` on non-multimodal input) and the library lookup it triggers.
Returns the effective `request_mode`, `library_search_context`, the
events, and an abort flag: when `search_library` raises (configured
collection) the route's outer `except` (line 1016) aborts the request
with the generic internal-error response. -/
def classifyPhase (req : ChatReq) (env : Env) :
    Option String × Option String × List Event × Bool :=
  if req.mode = some "chat" && !is_multimodal req then
    match should_auto_search req.text with
    | some m =>
      if m = "web_search" || m = "security_search" then
        match search_library env.libraryConfigured env.libraryDb req.text with
        | Except.ok lib => (some m, lib, [Event.callSearchLibrary req.text], false)
        | Except.error _ => (some m, none, [Event.callSearchLibrary req.text], true)
      else (some m, none, [], false)
    | none => (req.mode, none, [], false)
  else (req.mode, none, [], false)

/-- app.py lines 892-904: the web-search block, including the
web-search quota check and increment.  Returns `web_search_context`,
the updated user record, and the events. -/
def webPhase (mode : Option String) (req : ChatReq) (user : UserRec) (env : Env) :
    Option String × UserRec × List Event :=
  if (mode = some "web_search" || mode = some "security_search") && !is_multimodal req
      && !(stripL req.text.data).isEmpty then
    if !env.serperKey then (some webDisabledMsg, user, [])
    else if !user.isPremium && !user.isAdmin then
      if user.webSearches ≥ 1 then (some webLimitMsg, user, [Event.readUser])
      else
        (some (search_web env.serperKey req.text env.serperOutcome),
         { user with webSearches := user.webSearches + 1 },
         [Event.readUser, Event.callSearchWeb req.text, Event.incWebSearches])
    else
      (some (search_web env.serperKey req.text env.serperOutcome), user,
       [Event.callSearchWeb req.text])
  else (none, user, [])

/-- `l[-10:]`. -/
def lastN {α : Type} (n : Nat) (l : List α) : List α := l.drop (l.length - n)

/-- app.py lines 906-925: the two history encodings (Gemini roles
`user`/`model`, OpenAI roles `user`/`assistant`). -/
def historyPhase (req : ChatReq) (env : Env) :
    List (String × String) × List (String × String) :=
  match env.conversation with
  | some msgs =>
    if req.isTemporary then ([], [])
    else
      let past := lastN 10 msgs
      (past.map (fun t => (if t.sender = "user" then "user" else "model", t.text)),
       past.map (fun t => (if t.sender = "user" then "user" else "assistant", t.text)))
  | none => ([], [])

/-- app.py lines 929-963: the Groq attempt.  `web_search_context` and
`library_search_context` are non-empty strings whenever set, so Python
truthiness is `Option.isSome` here.  Returns `call_api`'s result (the
oracle) and the events. -/
def groqPhase (mode : Option String) (webCtx libCtx : Option String) (req : ChatReq)
    (env : Env) : Option String × List Event :=
  if !is_multimodal req && !(stripL req.text.data).isEmpty then
    if mode = some "code_security_scan" then
      (env.groqOutcome, [Event.callGroq "Groq (Code Scan)"])
    else if webCtx.isSome || libCtx.isSome then
      (env.groqOutcome, [Event.callGroq "Groq (Contextual Search)"])
    else if env.groqKey then
      (env.groqOutcome, [Event.callGroq "Groq"])
    else (none, [])
  else (none, [])

/-! ## The Gemini fallback block (app.py lines 965-1012) -/

def codeScanGeminiPrompt (msg : String) : String :=
  "You are 'Sofia-Sec-L'. Analyze the following code for security vulnerabilities. Output a Markdown report.\n\n"
    ++ msg

def contextPrompt (webCtx libCtx : Option String) (msg : String) : String :=
  let sys := "You are 'Sofia-Sec-L'. Answer based only on the context provided below. Cite sources.\n"
  let ctxParts :=
    (match webCtx with
     | some w => ["--- WEB SEARCH RESULTS ---\n" ++ w]
     | none => []) ++
    (match libCtx with
     | some l => ["--- YOUR LIBRARY RESULTS ---\n" ++ l]
     | none => [])
  sys ++ "\n\n" ++ String.intercalate "\n\n" ctxParts ++ "\n\n--- USER QUESTION ---\n" ++ msg

/-- app.py lines 989-993: the inline-attachment decode chain.  The
extractor outputs live in the environment. -/
def fileParts (req : ChatReq) (env : Env) : List Part :=
  if strContains req.fileType "pdf" then [Part.text env.pdfText]
  else if strContains req.fileType "word" then [Part.text env.docxText]
  else if strContains req.fileType "image" then [Part.image]
  else []

/-- The branch chain of lines 968-993 either returns early (transcript
failure, keyword-document failure) or produces the `prompt_parts`
list. -/
inductive GemPrep
  | early (r : ChatResponse)
  | go (parts : List Part)
  deriving DecidableEq, Repr

def geminiPrep (mode : Option String) (webCtx libCtx : Option String) (req : ChatReq)
    (env : Env) : GemPrep :=
  let parts0 : List Part := if req.text = "" then [] else [Part.text req.text]
  if mode = some "code_security_scan" then
    .go [Part.text (codeScanGeminiPrompt req.text)]
  else if webCtx.isSome || libCtx.isSome then
    .go [Part.text (contextPrompt webCtx libCtx req.text)]
  else if strContains req.text "youtube.com" || strContains req.text "youtu.be" then
    match env.videoId with
    | some _ =>
      match pyTruthy env.transcript with
      | some tr => .go [Part.text ("Summarize this YouTube video transcript:\n\n" ++ tr)]
      | none => .early (ChatResponse.ok "Sorry, couldn't get the transcript.")
    | none => .early (ChatResponse.ok "Sorry, couldn't get the transcript.")
  -- the PDF_KEYWORDS branch (line 984) is never taken: the table is configured empty
  else if PDF_KEYWORDS.any (fun kv => hasInfix (lowerL req.text.data) kv.1.data) then
    .early (ChatResponse.ok "Sorry, could not download the document.")
  else if hasFileData req then
    .go (parts0 ++ fileParts req env)
  else
    .go parts0

def partIsNonemptyText : Part → Bool
  | .text s => !(stripL s.data).isEmpty
  | .image => false

def lastIsImage (parts : List Part) : Bool :=
  match parts.getLast? with
  | some Part.image => true
  | _ => false

/-- app.py lines 965-1012: prompt assembly, the first Gemini call
(with history unless context/code-scan), the retry on exception with
the bare `prompt_parts`, and the fixed apology when both fail. -/
def geminiPhase (mode : Option String) (webCtx libCtx : Option String) (req : ChatReq)
    (env : Env) (ghist : List (String × String)) : ChatResponse × List Event :=
  match geminiPrep mode webCtx libCtx req env with
  | .early r => (r, [])
  | .go parts =>
    if parts.isEmpty then (ChatResponse.ok "Please ask a question or upload a file.", [])
    else
      let parts :=
        if lastIsImage parts && !(parts.any partIsNonemptyText) then
          Part.text "Describe this image." :: parts
        else parts
      let ctxCond := webCtx.isSome || libCtx.isSome || mode = some "code_security_scan"
      let arg1 := if ctxCond then GeminiArg.bare parts else GeminiArg.withHistory ghist parts
      match env.geminiFirst with
      | .ok t => (ChatResponse.ok t, [Event.callGemini 1 arg1])
      | .error _ =>
        match env.geminiRetry with
        | .ok t =>
          (ChatResponse.ok t, [Event.callGemini 1 arg1, Event.callGemini 2 (GeminiArg.bare parts)])
        | .error _ =>
          (ChatResponse.ok apologyMsg,
           [Event.callGemini 1 arg1, Event.callGemini 2 (GeminiArg.bare parts)])

/-! ## The whole route -/

/-- Line 1018: what the outer `except` of the route returns. -/
def internalErrorMsg : String := "Sorry, an internal error occurred."

/-- The `/chat` handler (app.py lines 727-1018) for a logged-in user:
quota gate, classification (whose library-search crash aborts to the
outer `except` and its internal-error response), web-search block,
history assembly, the Groq attempt (`if not ai_response` treats `''`
and `None` alike), the Gemini fallback, and the final
`{'response': ...}`. -/
def chat (user : UserRec) (req : ChatReq) (env : Env) : ChatResponse × UserRec × List Event :=
  match quotaGate user env.today with
  | (some resp, u1, ev1) => (resp, u1, ev1)
  | (none, u1, ev1) =>
    let cl := classifyPhase req env
    if cl.2.2.2 then (ChatResponse.ok internalErrorMsg, u1, ev1 ++ cl.2.2.1)
    else
      let mode := cl.1
      let libCtx := cl.2.1
      let wp := webPhase mode req u1 env
      let webCtx := wp.1
      let u2 := wp.2.1
      let ghist := (historyPhase req env).1
      let gp := groqPhase mode webCtx libCtx req env
      match pyTruthy gp.1 with
      | some t => (ChatResponse.ok t, u2, ev1 ++ cl.2.2.1 ++ wp.2.2 ++ gp.2)
      | none =>
        let gm := geminiPhase mode webCtx libCtx req env ghist
        (gm.1, u2, ev1 ++ cl.2.2.1 ++ wp.2.2 ++ gp.2 ++ gm.2)

/-- The response component of a request. -/
def chatResp (user : UserRec) (req : ChatReq) (env : Env) : ChatResponse :=
  (chat user req env).1

/-- The stored user record after a request. -/
def chatUser (user : UserRec) (req : ChatReq) (env : Env) : UserRec :=
  (chat user req env).2.1

/-- The event trace of a request. -/
def chatTrace (user : UserRec) (req : ChatReq) (env : Env) : List Event :=
  (chat user req env).2.2

/-! ## Event classification and trace predicates -/

def Event.isAI : Event → Bool
  | .callGroq _ => true
  | .callGemini _ _ => true
  | _ => false

def Event.isCounter : Event → Bool
  | .incMessages => true
  | .incWebSearches => true
  | _ => false

/-- A read, reset, or increment of the user's quota counters. -/
def Event.isQuotaTouch : Event → Bool
  | .readUser => true
  | .resetCounters => true
  | .incMessages => true
  | .incWebSearches => true
  | _ => false

def Event.isGroq : Event → Bool
  | .callGroq _ => true
  | _ => false

def Event.isGemini : Event → Bool
  | .callGemini _ _ => true
  | _ => false

def Event.isWebSearch : Event → Bool
  | .callSearchWeb _ => true
  | _ => false

/-- Scan of a trace: `true` when no counter event occurs at or after an
AI-provider call. -/
def noIncAfterAIAux : Bool → List Event → Bool
  | _, [] => true
  | seen, e :: rest =>
    if seen && e.isCounter then false
    else noIncAfterAIAux (seen || e.isAI) rest

/-- Every counter increment in the trace is strictly before every
AI-provider call. -/
def quotaBeforeAI (tr : List Event) : Bool := noIncAfterAIAux false tr

/-! ## Trace-shape lemmas for the phases -/

theorem quotaGate_events (user : UserRec) (today : Nat) :
    (quotaGate user today).2.2 = [] ∨
    (quotaGate user today).2.2 = [Event.readUser] ∨
    (quotaGate user today).2.2 = [Event.readUser, Event.resetCounters, Event.readUser] ∨
    (quotaGate user today).2.2 = [Event.readUser, Event.incMessages] ∨
    (quotaGate user today).2.2 =
      [Event.readUser, Event.resetCounters, Event.readUser, Event.incMessages] := by
  unfold quotaGate
  split
  · simp
  · split <;> (dsimp only; split <;> simp)

theorem classifyPhase_events (req : ChatReq) (env : Env) :
    (classifyPhase req env).2.2.1 = [] ∨
    (classifyPhase req env).2.2.1 = [Event.callSearchLibrary req.text] := by
  unfold classifyPhase
  repeat' split
  all_goals simp

theorem webPhase_events (mode : Option String) (req : ChatReq) (user : UserRec) (env : Env) :
    (webPhase mode req user env).2.2 = [] ∨
    (webPhase mode req user env).2.2 = [Event.readUser] ∨
    (webPhase mode req user env).2.2 =
      [Event.readUser, Event.callSearchWeb req.text, Event.incWebSearches] ∨
    (webPhase mode req user env).2.2 = [Event.callSearchWeb req.text] := by
  unfold webPhase
  split
  · split
    · simp
    · split
      · split <;> simp
      · simp
  · simp

theorem groqPhase_events (mode : Option String) (webCtx libCtx : Option String)
    (req : ChatReq) (env : Env) :
    (groqPhase mode webCtx libCtx req env).2 = [] ∨
    ∃ s, (groqPhase mode webCtx libCtx req env).2 = [Event.callGroq s] := by
  unfold groqPhase
  split
  · split
    · exact Or.inr ⟨_, rfl⟩
    · split
      · exact Or.inr ⟨_, rfl⟩
      · split
        · exact Or.inr ⟨_, rfl⟩
        · simp
  · simp

theorem geminiPhase_events (mode : Option String) (webCtx libCtx : Option String)
    (req : ChatReq) (env : Env) (ghist : List (String × String)) :
    (geminiPhase mode webCtx libCtx req env ghist).2 = [] ∨
    (∃ a, (geminiPhase mode webCtx libCtx req env ghist).2 = [Event.callGemini 1 a]) ∨
    (∃ a ps, (geminiPhase mode webCtx libCtx req env ghist).2 =
      [Event.callGemini 1 a, Event.callGemini 2 (GeminiArg.bare ps)]) := by
  unfold geminiPhase
  split
  · simp
  · split
    · simp
    · cases env.geminiFirst with
      | ok t => exact Or.inr (Or.inl ⟨_, rfl⟩)
      | error e =>
        cases env.geminiRetry with
        | ok t => exact Or.inr (Or.inr ⟨_, _, rfl⟩)
        | error e2 => exact Or.inr (Or.inr ⟨_, _, rfl⟩)

/-! ## Derived phase facts -/

/-- The response is the 429 quota denial. -/
def ChatResponse.isDenied : ChatResponse → Bool
  | .quotaError _ _ _ => true
  | _ => false

theorem quotaGate_premium (user : UserRec) (today : Nat)
    (h : user.isPremium = true ∨ user.isAdmin = true) :
    quotaGate user today = (none, user, []) := by
  unfold quotaGate
  rcases h with h | h <;> simp [h]

theorem quotaGate_trace_noAI (user : UserRec) (today : Nat) :
    ∀ e ∈ (quotaGate user today).2.2, e.isAI = false := by
  rcases quotaGate_events user today with h | h | h | h | h <;> rw [h] <;> decide

theorem quotaGate_trace_noWebInc (user : UserRec) (today : Nat) :
    Event.incWebSearches ∉ (quotaGate user today).2.2 := by
  rcases quotaGate_events user today with h | h | h | h | h <;> rw [h] <;> decide

theorem quotaGate_trace_msgCount (user : UserRec) (today : Nat) :
    ((quotaGate user today).2.2).count Event.incMessages ≤ 1 := by
  rcases quotaGate_events user today with h | h | h | h | h <;> rw [h] <;> decide

theorem classifyPhase_trace_noQuotaTouch (req : ChatReq) (env : Env) :
    ∀ e ∈ (classifyPhase req env).2.2.1, e.isQuotaTouch = false := by
  rcases classifyPhase_events req env with h | h <;> rw [h] <;>
    simp [Event.isQuotaTouch]

theorem classifyPhase_trace_noAI (req : ChatReq) (env : Env) :
    ∀ e ∈ (classifyPhase req env).2.2.1, e.isAI = false := by
  rcases classifyPhase_events req env with h | h <;> rw [h] <;> simp [Event.isAI]

theorem webPhase_trace_noAI (mode : Option String) (req : ChatReq) (user : UserRec)
    (env : Env) : ∀ e ∈ (webPhase mode req user env).2.2, e.isAI = false := by
  rcases webPhase_events mode req user env with h | h | h | h <;> rw [h] <;>
    simp [Event.isAI]

theorem webPhase_trace_webIncCount (mode : Option String) (req : ChatReq) (user : UserRec)
    (env : Env) : ((webPhase mode req user env).2.2).count Event.incWebSearches ≤ 1 := by
  rcases webPhase_events mode req user env with h | h | h | h <;> rw [h] <;>
    simp [List.count_cons, List.count_nil]

theorem webPhase_trace_noMsgInc (mode : Option String) (req : ChatReq) (user : UserRec)
    (env : Env) : Event.incMessages ∉ (webPhase mode req user env).2.2 := by
  rcases webPhase_events mode req user env with h | h | h | h <;> rw [h] <;> simp

theorem webPhase_premium (mode : Option String) (req : ChatReq) (user : UserRec) (env : Env)
    (h : user.isPremium = true ∨ user.isAdmin = true) :
    (webPhase mode req user env).2.1 = user ∧
    (∀ e ∈ (webPhase mode req user env).2.2, e.isQuotaTouch = false) := by
  unfold webPhase
  split
  · split
    · simp
    · split
      · rcases h with h | h <;> simp_all
      · simp [Event.isQuotaTouch]
  · simp

theorem groqPhase_trace_noCounter (mode : Option String) (webCtx libCtx : Option String)
    (req : ChatReq) (env : Env) :
    ∀ e ∈ (groqPhase mode webCtx libCtx req env).2, e.isCounter = false := by
  rcases groqPhase_events mode webCtx libCtx req env with h | ⟨s, h⟩ <;> rw [h] <;>
    simp [Event.isCounter]

theorem groqPhase_trace_noQuotaTouch (mode : Option String) (webCtx libCtx : Option String)
    (req : ChatReq) (env : Env) :
    ∀ e ∈ (groqPhase mode webCtx libCtx req env).2, e.isQuotaTouch = false := by
  rcases groqPhase_events mode webCtx libCtx req env with h | ⟨s, h⟩ <;> rw [h] <;>
    simp [Event.isQuotaTouch]

theorem geminiPhase_trace_noCounter (mode : Option String) (webCtx libCtx : Option String)
    (req : ChatReq) (env : Env) (ghist : List (String × String)) :
    ∀ e ∈ (geminiPhase mode webCtx libCtx req env ghist).2, e.isCounter = false := by
  rcases geminiPhase_events mode webCtx libCtx req env ghist with h | ⟨a, h⟩ | ⟨a, ps, h⟩ <;>
    rw [h] <;> simp [Event.isCounter]

theorem geminiPhase_trace_noQuotaTouch (mode : Option String) (webCtx libCtx : Option String)
    (req : ChatReq) (env : Env) (ghist : List (String × String)) :
    ∀ e ∈ (geminiPhase mode webCtx libCtx req env ghist).2, e.isQuotaTouch = false := by
  rcases geminiPhase_events mode webCtx libCtx req env ghist with h | ⟨a, h⟩ | ⟨a, ps, h⟩ <;>
    rw [h] <;> simp [Event.isQuotaTouch]

theorem geminiPrep_early_ok (mode : Option String) (webCtx libCtx : Option String)
    (req : ChatReq) (env : Env) (r : ChatResponse)
    (h : geminiPrep mode webCtx libCtx req env = GemPrep.early r) :
    r.isDenied = false := by
  unfold geminiPrep at h
  repeat' split at h
  all_goals first
    | (cases h; rfl)
    | simp_all [ChatResponse.isDenied]

theorem geminiPhase_not_denied (mode : Option String) (webCtx libCtx : Option String)
    (req : ChatReq) (env : Env) (ghist : List (String × String)) :
    ((geminiPhase mode webCtx libCtx req env ghist).1).isDenied = false := by
  unfold geminiPhase
  split
  · next r h => exact geminiPrep_early_ok mode webCtx libCtx req env r h
  · split
    · simp [ChatResponse.isDenied]
    · cases env.geminiFirst with
      | ok t => simp [ChatResponse.isDenied]
      | error e =>
        cases env.geminiRetry with
        | ok t => simp [ChatResponse.isDenied]
        | error e2 => simp [ChatResponse.isDenied]

/-! ## `quotaBeforeAI` machinery -/

theorem noIncAfterAIAux_of_noCounter (l : List Event)
    (h : ∀ e ∈ l, e.isCounter = false) : ∀ s, noIncAfterAIAux s l = true := by
  induction l with
  | nil => intro s; rfl
  | cons e rest ih =>
    intro s
    have he : e.isCounter = false := h e (List.mem_cons_self e rest)
    have hrest : ∀ x ∈ rest, x.isCounter = false := fun x hx => h x (List.mem_cons_of_mem e hx)
    unfold noIncAfterAIAux
    simp [he]
    exact ih hrest _

theorem quotaBeforeAI_append (a b : List Event)
    (ha : ∀ e ∈ a, e.isAI = false) (hb : ∀ e ∈ b, e.isCounter = false) :
    quotaBeforeAI (a ++ b) = true := by
  unfold quotaBeforeAI
  induction a with
  | nil => exact noIncAfterAIAux_of_noCounter b hb false
  | cons e rest ih =>
    have he : e.isAI = false := ha e (List.mem_cons_self e rest)
    have hrest : ∀ x ∈ rest, x.isAI = false := fun x hx => ha x (List.mem_cons_of_mem e hx)
    unfold noIncAfterAIAux
    simp [he]
    exact ih hrest

/-! ## Decomposition of `chat` by the quota-gate outcome -/

theorem chat_of_gate_some (user : UserRec) (req : ChatReq) (env : Env)
    (r : ChatResponse) (u1 : UserRec) (ev1 : List Event)
    (hq : quotaGate user env.today = (some r, u1, ev1)) :
    chat user req env = (r, u1, ev1) := by
  unfold chat
  rw [hq]

theorem chat_of_gate_none (user : UserRec) (req : ChatReq) (env : Env)
    (u1 : UserRec) (ev1 : List Event)
    (hq : quotaGate user env.today = (none, u1, ev1)) :
    chat user req env =
      (let cl := classifyPhase req env
       if cl.2.2.2 then (ChatResponse.ok internalErrorMsg, u1, ev1 ++ cl.2.2.1)
       else
         let wp := webPhase cl.1 req u1 env
         let gp := groqPhase cl.1 wp.1 cl.2.1 req env
         match pyTruthy gp.1 with
         | some t => (ChatResponse.ok t, wp.2.1, ev1 ++ cl.2.2.1 ++ wp.2.2 ++ gp.2)
         | none =>
           let gm := geminiPhase cl.1 wp.1 cl.2.1 req env (historyPhase req env).1
           (gm.1, wp.2.1, ev1 ++ cl.2.2.1 ++ wp.2.2 ++ gp.2 ++ gm.2)) := by
  unfold chat
  rw [hq]

theorem if_false_bool {A : Type} (a b : A) : (if false = true then a else b) = b := rfl

theorem if_true_bool {A : Type} (a b : A) : (if true = true then a else b) = a := rfl

/-- A default environment for concrete witnesses. -/
def defEnv : Env :=
  { today := 0, serperKey := false, groqKey := false, libraryConfigured := false,
    libraryDb := [], conversation := none, serperOutcome := SerperOutcome.failure "",
    groqOutcome := none, geminiFirst := Except.error "", geminiRetry := Except.error "",
    videoId := none, transcript := none, pdfText := "", docxText := "" }

/-- A default request for concrete witnesses. -/
def defReq : ChatReq :=
  { text := "hello there", fileData := none, fileType := "", isTemporary := false,
    mode := some "chat" }

theorem gate_none_split (user : UserRec) (today : Nat)
    (h : (quotaGate user today).1 = none) :
    quotaGate user today =
      (none, (quotaGate user today).2.1, (quotaGate user today).2.2) := by
  rw [← h]

/-- Once the quota gate lets a request through, the response is one of
the 200 `{'response': ...}` forms, never the 429 denial. -/
theorem chat_not_denied (user : UserRec) (req : ChatReq) (env : Env)
    (h : (quotaGate user env.today).1 = none) :
    (chatResp user req env).isDenied = false := by
  have hc := chat_of_gate_none user req env _ _ (gate_none_split user env.today h)
  unfold chatResp
  rw [hc]
  dsimp only
  split
  · rfl
  · split
    · rfl
    · exact geminiPhase_not_denied _ _ _ _ _ _

/-- For premium/admin users the stored record is untouched and no
quota event (read, reset, or increment) is ever emitted. -/
theorem chat_premium_untouched (user : UserRec) (req : ChatReq) (env : Env)
    (h : user.isPremium = true ∨ user.isAdmin = true) :
    chatUser user req env = user ∧
    ∀ e ∈ chatTrace user req env, e.isQuotaTouch = false := by
  have hq := quotaGate_premium user env.today h
  have hc := chat_of_gate_none user req env user [] hq
  unfold chatUser chatTrace
  rw [hc]
  dsimp only
  split
  · refine ⟨rfl, ?_⟩
    intro e he
    simp only [List.nil_append] at he
    exact classifyPhase_trace_noQuotaTouch req env e he
  · split
    · refine ⟨(webPhase_premium _ req user env h).1, ?_⟩
      intro e he
      simp only [List.nil_append, List.mem_append] at he
      rcases he with (he | he) | he
      · exact classifyPhase_trace_noQuotaTouch req env e he
      · exact (webPhase_premium _ req user env h).2 e he
      · exact groqPhase_trace_noQuotaTouch _ _ _ req env e he
    · refine ⟨(webPhase_premium _ req user env h).1, ?_⟩
      intro e he
      simp only [List.nil_append, List.mem_append] at he
      rcases he with ((he | he) | he) | he
      · exact classifyPhase_trace_noQuotaTouch req env e he
      · exact (webPhase_premium _ req user env h).2 e he
      · exact groqPhase_trace_noQuotaTouch _ _ _ req env e he
      · exact geminiPhase_trace_noQuotaTouch _ _ _ req env _ e he

/-! ## C1 -/

/-- C1: for every chat request from a non-premium, non-admin user, if
`messagesUsedToday >= 15` within the same UTC day, the request is
denied with the limit error message, `upgrade_required` true and HTTP
status 429, and nothing but the user read happens (in particular no AI
call); if `lastResetDate` is before today both counters are first reset
to 0 and `lastResetDate` set to today, after which the request is
allowed (and has consumed one message); premium and admin users are
always allowed and their counters are never read, reset, or
incremented. -/
theorem C1_daily_message_quota (user : UserRec) (req : ChatReq) (env : Env) :
    (user.isPremium = false → user.isAdmin = false → ¬ user.lastReset < env.today →
      15 ≤ user.messages →
      chatResp user req env = ChatResponse.quotaError dailyLimitMsg true 429 ∧
      chatTrace user req env = [Event.readUser]) ∧
    (user.isPremium = false → user.isAdmin = false → user.lastReset < env.today →
      (quotaGate user env.today).1 = none ∧
      (quotaGate user env.today).2.1.messages = 1 ∧
      (quotaGate user env.today).2.1.webSearches = 0 ∧
      (quotaGate user env.today).2.1.lastReset = env.today ∧
      Event.resetCounters ∈ chatTrace user req env ∧
      (chatResp user req env).isDenied = false) ∧
    (user.isPremium = true ∨ user.isAdmin = true →
      (chatResp user req env).isDenied = false ∧
      chatUser user req env = user ∧
      ∀ e ∈ chatTrace user req env, e.isQuotaTouch = false) := by
  refine ⟨?_, ?_, ?_⟩
  · intro hp ha hlt hge
    have hq : quotaGate user env.today =
        (some (ChatResponse.quotaError dailyLimitMsg true 429), user, [Event.readUser]) := by
      simp [quotaGate, hp, ha, hlt, hge]
    have hc := chat_of_gate_some user req env _ _ _ hq
    exact ⟨by unfold chatResp; rw [hc], by unfold chatTrace; rw [hc]⟩
  · intro hp ha hlt
    have hq : quotaGate user env.today =
        (none, { user with messages := 1, webSearches := 0, lastReset := env.today },
         [Event.readUser, Event.resetCounters, Event.readUser, Event.incMessages]) := by
      simp [quotaGate, hp, ha, hlt]
    have hc := chat_of_gate_none user req env _ _ hq
    refine ⟨by rw [hq], by rw [hq], by rw [hq], by rw [hq], ?_, ?_⟩
    · unfold chatTrace
      rw [hc]
      dsimp only
      split
      · simp
      · split <;> simp
    · exact chat_not_denied user req env (by rw [hq])
  · intro h
    have h2 := chat_premium_untouched user req env h
    refine ⟨chat_not_denied user req env ?_, h2.1, h2.2⟩
    rw [quotaGate_premium user env.today h]

theorem C1_daily_message_quota_witness :
    (chatResp
        { isPremium := false, isAdmin := false, messages := 15, webSearches := 0,
          lastReset := 7 } defReq { defEnv with today := 7 } =
      ChatResponse.quotaError dailyLimitMsg true 429) ∧
    ((quotaGate
        { isPremium := false, isAdmin := false, messages := 15, webSearches := 0,
          lastReset := 6 } 7).1 = none) ∧
    ((chatResp
        { isPremium := false, isAdmin := false, messages := 15, webSearches := 0,
          lastReset := 6 } defReq { defEnv with today := 7 }).isDenied = false) ∧
    (chatUser
        { isPremium := true, isAdmin := false, messages := 3, webSearches := 1,
          lastReset := 2 } defReq defEnv =
      { isPremium := true, isAdmin := false, messages := 3, webSearches := 1,
        lastReset := 2 }) :=
  ⟨((C1_daily_message_quota _ defReq _).1 rfl rfl (by decide) (by decide)).1,
   ((C1_daily_message_quota
      { isPremium := false, isAdmin := false, messages := 15, webSearches := 0,
        lastReset := 6 } defReq { defEnv with today := 7 }).2.1 rfl rfl (by decide)).1,
   (((C1_daily_message_quota
      { isPremium := false, isAdmin := false, messages := 15, webSearches := 0,
        lastReset := 6 } defReq { defEnv with today := 7 }).2.1 rfl rfl
        (by decide)).2.2.2.2.2),
   ((C1_daily_message_quota
      { isPremium := true, isAdmin := false, messages := 3, webSearches := 1,
        lastReset := 2 } defReq defEnv).2.2 (Or.inl rfl)).2.1⟩

/-! ## C9 -/

/-- C9: greeting detection is a string-prefix match on the lower-cased
trimmed message, not a word match: any message beginning with the
characters of a greeting/thanks keyword classifies as plain chat
(`none`), short-circuiting the security, code, and web-search rules. -/
theorem C9_greeting_prefix_match (msg : String)
    (h : chat_keywords.any (fun k => listPrefix k.data (lowerStrip msg)) = true) :
    should_auto_search msg = none := by
  unfold should_auto_search
  simp [h]

theorem C9_greeting_prefix_match_witness :
    (chat_keywords.any (fun k => listPrefix k.data (lowerStrip "history of rome")) = true) ∧
    should_auto_search "history of rome" = none ∧
    should_auto_search "thanksgiving recipes" = none ∧
    should_auto_search "hi, explain sql injection and cve- details" = none :=
  ⟨by decide,
   C9_greeting_prefix_match "history of rome" (by decide),
   C9_greeting_prefix_match "thanksgiving recipes" (by decide),
   C9_greeting_prefix_match "hi, explain sql injection and cve- details" (by decide)⟩

/-! ## C2 -/

/-- C2 as stated is false: "hi phishing" contains the configured
security keyword "phishing" yet classifies as plain chat (`none`), not
SECURITY_SEARCH, because the greeting-prefix rule fires first. -/
theorem C2_counterexample :
    (security_keywords.any (fun k => hasInfix (lowerStrip "hi phishing") k.data) = true) ∧
    should_auto_search "hi phishing" ≠ some "security_search" := by
  exact ⟨by decide, by decide⟩

/-- C2 (amended): auto-classification applies exactly the ordered rule
list — greeting prefix → plain chat; else security keyword →
SECURITY_SEARCH; else code keyword, matched case-sensitively against
the original message → CODE_SECURITY_SCAN; else general phrase →
WEB_SEARCH; else more than 6 whitespace tokens → WEB_SEARCH; else plain
chat.  In particular every message that contains a security keyword
*and does not start with a greeting phrase* classifies as
SECURITY_SEARCH, even when it also contains a general phrase. -/
theorem C2_auto_classification_rules (msg : String) :
    (chat_keywords.any (fun k => listPrefix k.data (lowerStrip msg)) = true →
      should_auto_search msg = none) ∧
    (chat_keywords.any (fun k => listPrefix k.data (lowerStrip msg)) = false →
      security_keywords.any (fun k => hasInfix (lowerStrip msg) k.data) = true →
      should_auto_search msg = some "security_search") ∧
    (chat_keywords.any (fun k => listPrefix k.data (lowerStrip msg)) = false →
      security_keywords.any (fun k => hasInfix (lowerStrip msg) k.data) = false →
      code_keywords.any (fun k => strContains msg k) = true →
      should_auto_search msg = some "code_security_scan") ∧
    (chat_keywords.any (fun k => listPrefix k.data (lowerStrip msg)) = false →
      security_keywords.any (fun k => hasInfix (lowerStrip msg) k.data) = false →
      code_keywords.any (fun k => strContains msg k) = false →
      general_search_keywords.any (fun k => hasInfix (lowerStrip msg) k.data) = true →
      should_auto_search msg = some "web_search") ∧
    (chat_keywords.any (fun k => listPrefix k.data (lowerStrip msg)) = false →
      security_keywords.any (fun k => hasInfix (lowerStrip msg) k.data) = false →
      code_keywords.any (fun k => strContains msg k) = false →
      general_search_keywords.any (fun k => hasInfix (lowerStrip msg) k.data) = false →
      (pySplit msg).length > 6 →
      should_auto_search msg = some "web_search") ∧
    (chat_keywords.any (fun k => listPrefix k.data (lowerStrip msg)) = false →
      security_keywords.any (fun k => hasInfix (lowerStrip msg) k.data) = false →
      code_keywords.any (fun k => strContains msg k) = false →
      general_search_keywords.any (fun k => hasInfix (lowerStrip msg) k.data) = false →
      ¬ (pySplit msg).length > 6 →
      should_auto_search msg = none) := by
  refine ⟨?_, ?_, ?_, ?_, ?_, ?_⟩
  · intro h1
    unfold should_auto_search
    rw [h1]
    exact rfl
  · intro h1 h2
    unfold should_auto_search
    rw [h1, h2]
    exact rfl
  · intro h1 h2 h3
    unfold should_auto_search
    rw [h1, h2, h3]
    exact rfl
  · intro h1 h2 h3 h4
    unfold should_auto_search
    rw [h1, h2, h3, h4]
    exact rfl
  · intro h1 h2 h3 h4 h5
    unfold should_auto_search
    rw [h1, h2, h3, h4]
    simp only [Bool.false_eq_true, if_false]
    rw [if_pos h5]
  · intro h1 h2 h3 h4 h5
    unfold should_auto_search
    rw [h1, h2, h3, h4]
    simp only [Bool.false_eq_true, if_false]
    rw [if_neg h5]

theorem C2_auto_classification_rules_witness :
    should_auto_search "hi phishing" = none ∧
    should_auto_search "what is phishing" = some "security_search" ∧
    should_auto_search "SELECT * FROM users" = some "code_security_scan" ∧
    should_auto_search "select * from users" = none ∧
    should_auto_search "what is love" = some "web_search" ∧
    should_auto_search "one two three four five six seven" = some "web_search" :=
  ⟨(C2_auto_classification_rules "hi phishing").1 (by decide),
   (C2_auto_classification_rules "what is phishing").2.1 (by decide) (by decide),
   (C2_auto_classification_rules "SELECT * FROM users").2.2.1 (by decide) (by decide)
     (by decide),
   (C2_auto_classification_rules "select * from users").2.2.2.2.2 (by decide) (by decide)
     (by decide) (by decide) (by decide),
   (C2_auto_classification_rules "what is love").2.2.2.1 (by decide) (by decide) (by decide)
     (by decide),
   (C2_auto_classification_rules "one two three four five six seven").2.2.2.2.1 (by decide)
     (by decide) (by decide) (by decide) (by decide)⟩

/-! ## C6 -/

theorem libMatchesKeys_perm (ks1 ks2 : List (List Char)) (t : String)
    (hp : List.Perm ks1 ks2) : libMatchesKeys ks1 t = libMatchesKeys ks2 t := by
  unfold libMatchesKeys
  rw [Bool.eq_iff_iff]
  simp only [List.any_eq_true]
  constructor
  · rintro ⟨line, hline, hall⟩
    refine ⟨line, hline, ?_⟩
    unfold libMatchesKeysLine at hall ⊢
    simp only [List.all_eq_true] at hall ⊢
    exact fun k hk => hall k (hp.mem_iff.mpr hk)
  · rintro ⟨line, hline, hall⟩
    refine ⟨line, hline, ?_⟩
    unfold libMatchesKeysLine at hall ⊢
    simp only [List.all_eq_true] at hall ⊢
    exact fun k hk => hall k (hp.mem_iff.mp hk)

/-- C6 as stated is false of the program on two counts: (1) with a
configured library collection, `search_library` raises
`NotImplementedError` at its truthiness guard (line 828, outside its
try/except) before any matching, so it returns no matches at all; and
(2) even the matching its dead body would perform is line-scoped — the
pattern's `.` does not cross newlines — so a document whose text is
"beta\nalpha" contains both tokens of the query "alpha beta" yet does
not match, refuting the claimed iff. -/
theorem C6_counterexample :
    search_library true
        [{ filename := some "doc1", extracted_text := "xx beta yy alpha zz" }]
        "alpha beta" = Except.error notImplementedMsg ∧
    strContains "beta\nalpha" "alpha" = true ∧
    strContains "beta\nalpha" "beta" = true ∧
    libMatches "alpha beta" "beta\nalpha" = false :=
  ⟨rfl, by decide, by decide, by decide⟩

/-- C6 (amended): `search_library` as executed raises
`NotImplementedError` whenever the library collection is configured
(the truthiness test of line 828, which escapes the function and is
turned into the route's generic internal-error response) and returns
an absent value when the collection is unconfigured.  The matching its
unreachable body would apply: a stored document matches exactly when
some single LINE of its extracted text contains every whitespace token
of the query, case-insensitively and in any order; at most 3 matches,
each with the filename and a 300-character excerpt, and an absent value
(not an empty string) on zero matches. -/
theorem C6_library_search :
    (∀ (db : List LibDoc) (q : String),
      search_library true db q = Except.error notImplementedMsg) ∧
    (∀ (db : List LibDoc) (q : String), search_library false db q = Except.ok none) ∧
    (search_library_body
        [{ filename := some "doc1", extracted_text := "xx beta yy alpha zz" }]
        "alpha beta" ≠ none) ∧
    (search_library_body
        [{ filename := some "doc1", extracted_text := "alpha only here" }]
        "alpha beta" = none) ∧
    (search_library_body
        [{ filename := some "doc1", extracted_text := "beta\nalpha" }]
        "alpha beta" = none) ∧
    (search_library_body
        [{ filename := some "doc1", extracted_text := "ALPHA and BETA" }]
        "alpha beta" ≠ none) ∧
    (∀ ks1 ks2 : List (List Char), ∀ t : String, List.Perm ks1 ks2 →
      libMatchesKeys ks1 t = libMatchesKeys ks2 t) ∧
    (∀ (db : List LibDoc) (q : String), (libraryMatches db q).length ≤ 3) ∧
    (∀ (db : List LibDoc) (q : String) (d : LibDoc),
      d ∈ libraryMatches db q → libMatches q d.extracted_text = true) ∧
    (∀ (db : List LibDoc) (q : String),
      search_library_body db q = none ↔ libraryMatches db q = []) ∧
    (∀ s : String, (strTake s 300).length ≤ 300) := by
  refine ⟨fun db q => rfl, fun db q => rfl, by decide, by decide, by decide, by decide,
    libMatchesKeys_perm, ?_, ?_, ?_, ?_⟩
  · intro db q
    unfold libraryMatches
    exact List.length_take_le _ _
  · intro db q d hd
    unfold libraryMatches at hd
    have h2 : d ∈ List.filter (fun d => libMatches q d.extracted_text) db :=
      List.take_subset _ _ hd
    exact (List.mem_filter.mp h2).2
  · intro db q
    constructor
    · intro h
      simp only [search_library_body] at h
      by_cases he : ((libraryMatches db q).map formatLibDoc).isEmpty = true
      · exact List.map_eq_nil_iff.mp (List.isEmpty_iff.mp he)
      · rw [if_neg he] at h
        exact absurd h (Option.some_ne_none _)
    · intro h
      unfold search_library_body
      rw [h]
      rfl
  · intro s
    show (s.data.take 300).length ≤ 300
    exact List.length_take_le _ _

theorem C6_library_search_witness :
    search_library true ([] : List LibDoc) "alpha" = Except.error notImplementedMsg ∧
    search_library false ([] : List LibDoc) "alpha" = Except.ok none ∧
    (libMatchesKeys ["alpha".data, "beta".data] "xx beta yy alpha" =
      libMatchesKeys ["beta".data, "alpha".data] "xx beta yy alpha") ∧
    ((libraryMatches
        [{ filename := none, extracted_text := "alpha" },
         { filename := none, extracted_text := "an alpha b" },
         { filename := none, extracted_text := "c ALPHA d" },
         { filename := none, extracted_text := "alpha e" },
         { filename := none, extracted_text := "no match" }] "alpha").length ≤ 3) ∧
    (search_library_body ([] : List LibDoc) "alpha" = none ↔
      libraryMatches ([] : List LibDoc) "alpha" = []) ∧
    ((strTake "tiny" 300).length ≤ 300) :=
  ⟨C6_library_search.1 [] "alpha",
   C6_library_search.2.1 [] "alpha",
   C6_library_search.2.2.2.2.2.2.1 _ _ _ (by decide),
   C6_library_search.2.2.2.2.2.2.2.1 _ _,
   C6_library_search.2.2.2.2.2.2.2.2.2.1 _ _,
   C6_library_search.2.2.2.2.2.2.2.2.2.2 _⟩

/-! ## C7 -/

/-- C7 as stated is false: the transport/API-failure return of
`search_web` is not a fixed sentinel string — it interpolates the raw
exception text, so two different failures produce two different
strings. -/
theorem C7_counterexample :
    search_web true "q" (SerperOutcome.failure "connection timeout") ≠
      search_web true "q" (SerperOutcome.failure "bad gateway") ∧
    search_web true "q" (SerperOutcome.failure "connection timeout") =
      "An error occurred during the web search: connection timeout" :=
  ⟨by decide, rfl⟩

/-- C7 (amended): `search_web` always returns a string (the embedding is
total, mirroring the catch-all handler): on success it formats up to 5
organic results as Title/Snippet/Source blocks joined by a separator;
with no organic results but a truthy direct-answer box it returns that
answer (prefixed "Direct Answer: "); with neither it returns the fixed
"no results" sentinel; and on any transport or API failure it returns a
degraded-service message that embeds the raw error text (a fixed prefix,
not a fixed sentinel string). -/
theorem C7_search_web_envelope :
    (∀ (q : String) (items : List OrganicItem) (box : Option AnswerBox), items ≠ [] →
      search_web true q (SerperOutcome.ok { organic := some items, answerBox := box }) =
        String.intercalate blockSep ((items.take 5).map formatOrganic) ∧
        ((items.take 5).map formatOrganic).length ≤ 5) ∧
    (∀ (q ans : String) (box : AnswerBox), pyOrStr box.snippet box.answer = some ans →
      search_web true q (SerperOutcome.ok { organic := none, answerBox := some box }) =
        "Direct Answer: " ++ ans) ∧
    (∀ (q ans : String) (box : AnswerBox), pyOrStr box.snippet box.answer = some ans →
      search_web true q (SerperOutcome.ok { organic := some [], answerBox := some box }) =
        "Direct Answer: " ++ ans) ∧
    (∀ q : String, search_web true q (SerperOutcome.ok { organic := none, answerBox := none }) =
      "No relevant web results found.") ∧
    (∀ (q : String) (box : AnswerBox), pyOrStr box.snippet box.answer = none →
      search_web true q (SerperOutcome.ok { organic := none, answerBox := some box }) =
        "No relevant web results found.") ∧
    (∀ q e : String, search_web true q (SerperOutcome.failure e) =
      "An error occurred during the web search: " ++ e) := by
  refine ⟨?_, ?_, ?_, ?_, ?_, ?_⟩
  · intro q items box hne
    constructor
    · unfold search_web
      cases items with
      | nil => exact absurd rfl hne
      | cons a as => exact rfl
    · rw [List.length_map]
      exact List.length_take_le _ _
  · intro q ans box h
    unfold search_web
    dsimp only
    rw [h]
    rfl
  · intro q ans box h
    unfold search_web
    dsimp only
    rw [h]
    rfl
  · intro q
    rfl
  · intro q box h
    unfold search_web
    dsimp only
    rw [h]
    rfl
  · intro q e
    rfl

theorem C7_search_web_envelope_witness :
    (search_web true "lean" (SerperOutcome.ok
        { organic := some [{ title := some "T", snippet := some "S", link := some "L" }],
          answerBox := none }) =
      String.intercalate blockSep
        (([({ title := some "T", snippet := some "S", link := some "L" } :
            OrganicItem)].take 5).map formatOrganic)) ∧
    (search_web true "lean" (SerperOutcome.ok
        { organic := none,
          answerBox := some { snippet := some "the answer", answer := none } }) =
      "Direct Answer: " ++ "the answer") ∧
    (search_web true "lean" (SerperOutcome.ok
        { organic := none, answerBox := some { snippet := some "", answer := none } }) =
      "No relevant web results found.") ∧
    (search_web true "lean" (SerperOutcome.failure "boom") =
      "An error occurred during the web search: " ++ "boom") :=
  ⟨(C7_search_web_envelope.1 _ _ _ (by decide)).1,
   C7_search_web_envelope.2.1 _ _ _ (by decide),
   C7_search_web_envelope.2.2.2.2.1 _ _ (by decide),
   C7_search_web_envelope.2.2.2.2.2 _ _⟩

/-! ## C3 -/

theorem gate_some_split (user : UserRec) (today : Nat) (r : ChatResponse)
    (h : (quotaGate user today).1 = some r) :
    quotaGate user today =
      (some r, (quotaGate user today).2.1, (quotaGate user today).2.2) := by
  rw [← h]

theorem quotaGate_trace_noSearchNoProvider (user : UserRec) (today : Nat) :
    ∀ e ∈ (quotaGate user today).2.2, e.isWebSearch = false ∧ e.isGroq = false := by
  rcases quotaGate_events user today with h | h | h | h | h <;> rw [h] <;> decide

theorem geminiPhase_trace_onlyGemini (mode : Option String) (webCtx libCtx : Option String)
    (req : ChatReq) (env : Env) (ghist : List (String × String)) :
    ∀ e ∈ (geminiPhase mode webCtx libCtx req env ghist).2, e.isGemini = true := by
  rcases geminiPhase_events mode webCtx libCtx req env ghist with h | ⟨a, h⟩ | ⟨a, ps, h⟩ <;>
    rw [h] <;> simp [Event.isGemini]

theorem gemini_not_search_not_groq (e : Event) (h : e.isGemini = true) :
    e.isWebSearch = false ∧ e.isGroq = false := by
  cases e <;> simp_all [Event.isGemini, Event.isWebSearch, Event.isGroq]

/-- C3: every request carrying a (non-empty) attachment is treated as
multimodal regardless of the client-supplied mode: the auto
classification is bypassed (the mode passes through unchanged and no
library search fires), the web-search block is skipped entirely, the
trace never holds a web-search or Groq call (every provider call is a
Gemini one), and — outside the code-scan prompt override and the
YouTube branch — the decoded attachment is placed into the Gemini
prompt parts. -/
theorem C3_attachment_multimodal (user : UserRec) (req : ChatReq) (env : Env)
    (h : hasFileData req = true) :
    is_multimodal req = true ∧
    classifyPhase req env = (req.mode, none, [], false) ∧
    (∀ u : UserRec, webPhase (classifyPhase req env).1 req u env = (none, u, [])) ∧
    (∀ e ∈ chatTrace user req env, e.isWebSearch = false ∧ e.isGroq = false) ∧
    (req.mode ≠ some "code_security_scan" →
      strContains req.text "youtube.com" = false →
      strContains req.text "youtu.be" = false →
      geminiPrep req.mode none none req env =
        GemPrep.go ((if req.text = "" then [] else [Part.text req.text]) ++
          fileParts req env)) := by
  have him : is_multimodal req = true := by simp [is_multimodal, h]
  have hcl : classifyPhase req env = (req.mode, none, [], false) := by
    unfold classifyPhase
    rw [him]
    simp
  have hwp : ∀ u : UserRec, webPhase (classifyPhase req env).1 req u env = (none, u, []) := by
    intro u
    unfold webPhase
    rw [him]
    simp
  have hgp : groqPhase req.mode none none req env = (none, []) := by
    unfold groqPhase
    rw [him]
    simp
  refine ⟨him, hcl, hwp, ?_, ?_⟩
  · cases hg : (quotaGate user env.today).1 with
    | some r =>
      have hc := chat_of_gate_some user req env _ _ _ (gate_some_split user env.today r hg)
      unfold chatTrace
      rw [hc]
      exact quotaGate_trace_noSearchNoProvider user env.today
    | none =>
      have hc := chat_of_gate_none user req env _ _ (gate_none_split user env.today hg)
      unfold chatTrace
      rw [hc]
      dsimp only
      rw [hcl] at hwp ⊢
      dsimp only
      rw [if_false_bool]
      rw [hwp, hgp]
      dsimp only [pyTruthy]
      intro e he
      simp only [List.append_nil, List.mem_append] at he
      rcases he with he | he
      · exact quotaGate_trace_noSearchNoProvider user env.today e he
      · exact gemini_not_search_not_groq e
          (geminiPhase_trace_onlyGemini _ _ _ req env _ e he)
  · intro h1 h2 h3
    unfold geminiPrep
    rw [if_neg h1, h2, h3]
    simp [h, PDF_KEYWORDS]

/-- A concrete attachment-bearing request. -/
def c3Req : ChatReq :=
  { text := "what is this", fileData := some "QUJD", fileType := "application/pdf",
    isTemporary := false, mode := some "chat" }

theorem C3_attachment_multimodal_witness :
    is_multimodal c3Req = true ∧
    classifyPhase c3Req defEnv = (c3Req.mode, none, [], false) ∧
    geminiPrep c3Req.mode none none c3Req defEnv =
      GemPrep.go ((if c3Req.text = "" then [] else [Part.text c3Req.text]) ++
        fileParts c3Req defEnv) :=
  ⟨(C3_attachment_multimodal
      { isPremium := true, isAdmin := false, messages := 0, webSearches := 0, lastReset := 0 }
      c3Req defEnv (by decide)).1,
   (C3_attachment_multimodal
      { isPremium := true, isAdmin := false, messages := 0, webSearches := 0, lastReset := 0 }
      c3Req defEnv (by decide)).2.1,
   (C3_attachment_multimodal
      { isPremium := true, isAdmin := false, messages := 0, webSearches := 0, lastReset := 0 }
      c3Req defEnv (by decide)).2.2.2.2 (by decide) (by decide) (by decide)⟩

/-! ## C5 -/

theorem quotaGate_preserves_flags (user : UserRec) (today : Nat) :
    (quotaGate user today).2.1.isPremium = user.isPremium ∧
    (quotaGate user today).2.1.isAdmin = user.isAdmin := by
  unfold quotaGate
  split
  · simp
  · dsimp only
    split <;> (dsimp only; split <;> simp)

theorem mem_chunks4 {A : Type} {a b c d : List A} {e : A} (he : e ∈ a ++ b ++ c ++ d) :
    e ∈ a ∨ e ∈ b ∨ e ∈ c ∨ e ∈ d := by
  rcases List.mem_append.mp he with h | h
  · rcases List.mem_append.mp h with h | h
    · rcases List.mem_append.mp h with h | h
      · exact Or.inl h
      · exact Or.inr (Or.inl h)
    · exact Or.inr (Or.inr (Or.inl h))
  · exact Or.inr (Or.inr (Or.inr h))

theorem mem_chunks5 {A : Type} {a b c d f : List A} {e : A}
    (he : e ∈ a ++ b ++ c ++ d ++ f) :
    e ∈ a ∨ e ∈ b ∨ e ∈ c ∨ e ∈ d ∨ e ∈ f := by
  rcases List.mem_append.mp he with h | h
  · rcases mem_chunks4 h with h | h | h | h
    · exact Or.inl h
    · exact Or.inr (Or.inl h)
    · exact Or.inr (Or.inr (Or.inl h))
    · exact Or.inr (Or.inr (Or.inr (Or.inl h)))
  · exact Or.inr (Or.inr (Or.inr (Or.inr h)))

/-- The concrete quota-exhausted web-search scenario: a free user with
`webSearchesUsedToday = 1`, explicit `web_search` mode, configured
search key, and a healthy Groq provider. -/
def c5User : UserRec :=
  { isPremium := false, isAdmin := false, messages := 0, webSearches := 1, lastReset := 5 }

def c5Req : ChatReq :=
  { text := "find recent lean theorem prover articles", fileData := none, fileType := "",
    isTemporary := false, mode := some "web_search" }

def c5Env : Env :=
  { defEnv with
    today := 5
    serperKey := true
    groqKey := true
    groqOutcome := some "model output" }

/-- C5 as stated is false: when the web-search quota is exhausted the
route does NOT surface the upgrade hint to the caller and it DOES
perform an AI call — the hint merely becomes the "search results"
context of a Groq contextual-search call, whose output is what the
caller receives. -/
theorem C5_counterexample :
    Event.callGroq "Groq (Contextual Search)" ∈ chatTrace c5User c5Req c5Env ∧
    chatResp c5User c5Req c5Env = ChatResponse.ok "model output" ∧
    ChatResponse.ok "model output" ≠ ChatResponse.ok webLimitMsg := by
  refine ⟨by decide, by decide, by decide⟩

/-- C5 (amended): for every non-premium, non-admin user whose
effective web-search request finds `webSearchesUsedToday >= 1`, the
webSearch kind is denied: no web-search call is made and the counter is
not incremented (the stored value is unchanged); the upgrade hint
becomes `web_search_context`, and — because that context is non-empty —
the request still proceeds to the Groq contextual-search AI call rather
than surfacing the hint directly to the caller. -/
theorem C5_webquota_denial (user : UserRec) (req : ChatReq) (env : Env)
    (hm : req.mode = some "web_search")
    (hmm : is_multimodal req = false)
    (ht : (stripL req.text.data).isEmpty = false)
    (hs : env.serperKey = true)
    (hp : user.isPremium = false) (ha : user.isAdmin = false)
    (hg : (quotaGate user env.today).1 = none)
    (hw : 1 ≤ (quotaGate user env.today).2.1.webSearches) :
    webPhase (classifyPhase req env).1 req (quotaGate user env.today).2.1 env =
      (some webLimitMsg, (quotaGate user env.today).2.1, [Event.readUser]) ∧
    (∀ e ∈ chatTrace user req env, e.isWebSearch = false) ∧
    Event.incWebSearches ∉ chatTrace user req env ∧
    Event.callGroq "Groq (Contextual Search)" ∈ chatTrace user req env ∧
    (chatUser user req env).webSearches = (quotaGate user env.today).2.1.webSearches := by
  have hpf : (quotaGate user env.today).2.1.isPremium = false := by
    rw [(quotaGate_preserves_flags user env.today).1, hp]
  have haf : (quotaGate user env.today).2.1.isAdmin = false := by
    rw [(quotaGate_preserves_flags user env.today).2, ha]
  have hcl : classifyPhase req env = (req.mode, none, [], false) := by
    unfold classifyPhase
    rw [hm]
    exact rfl
  have hwp : webPhase req.mode req (quotaGate user env.today).2.1 env =
      (some webLimitMsg, (quotaGate user env.today).2.1, [Event.readUser]) := by
    unfold webPhase
    rw [hm, hmm, ht, hs, hpf, haf, if_pos hw]
    exact rfl
  have hgp : groqPhase req.mode (some webLimitMsg) none req env =
      (env.groqOutcome, [Event.callGroq "Groq (Contextual Search)"]) := by
    unfold groqPhase
    rw [hm, hmm, ht]
    exact rfl
  have hc := chat_of_gate_none user req env _ _ (gate_none_split user env.today hg)
  refine ⟨by rw [hcl]; exact hwp, ?_, ?_, ?_, ?_⟩
  · unfold chatTrace
    rw [hc]
    dsimp only
    rw [hcl]
    dsimp only
    rw [if_false_bool]
    rw [hwp]
    dsimp only
    rw [hgp]
    dsimp only
    split
    · intro e he
      rcases mem_chunks4 he with he | he | he | he
      · exact (quotaGate_trace_noSearchNoProvider user env.today e he).1
      · exact absurd he (List.not_mem_nil e)
      · have h3 := List.mem_singleton.mp he
        subst h3
        rfl
      · have h3 := List.mem_singleton.mp he
        subst h3
        rfl
    · intro e he
      rcases mem_chunks5 he with he | he | he | he | he
      · exact (quotaGate_trace_noSearchNoProvider user env.today e he).1
      · exact absurd he (List.not_mem_nil e)
      · have h3 := List.mem_singleton.mp he
        subst h3
        rfl
      · have h3 := List.mem_singleton.mp he
        subst h3
        rfl
      · exact (gemini_not_search_not_groq e
          (geminiPhase_trace_onlyGemini _ _ _ req env _ e he)).1
  · unfold chatTrace
    rw [hc]
    dsimp only
    rw [hcl]
    dsimp only
    rw [if_false_bool]
    rw [hwp]
    dsimp only
    rw [hgp]
    dsimp only
    split
    · intro he
      rcases mem_chunks4 he with he | he | he | he
      · exact quotaGate_trace_noWebInc user env.today he
      · exact absurd he (List.not_mem_nil _)
      · exact Event.noConfusion (List.mem_singleton.mp he)
      · exact Event.noConfusion (List.mem_singleton.mp he)
    · intro he
      rcases mem_chunks5 he with he | he | he | he | he
      · exact quotaGate_trace_noWebInc user env.today he
      · exact absurd he (List.not_mem_nil _)
      · exact Event.noConfusion (List.mem_singleton.mp he)
      · exact Event.noConfusion (List.mem_singleton.mp he)
      · have h4 := geminiPhase_trace_noCounter _ _ _ req env _ _ he
        exact absurd h4 (by decide)
  · unfold chatTrace
    rw [hc]
    dsimp only
    rw [hcl]
    dsimp only
    rw [if_false_bool]
    rw [hwp]
    dsimp only
    rw [hgp]
    dsimp only
    split
    · simp
    · simp
  · unfold chatUser
    rw [hc]
    dsimp only
    rw [hcl]
    dsimp only
    rw [if_false_bool]
    rw [hwp]
    dsimp only
    rw [hgp]
    dsimp only
    split
    · rfl
    · rfl

theorem C5_webquota_denial_witness :
    webPhase (classifyPhase c5Req c5Env).1 c5Req (quotaGate c5User c5Env.today).2.1 c5Env =
      (some webLimitMsg, (quotaGate c5User c5Env.today).2.1, [Event.readUser]) ∧
    Event.incWebSearches ∉ chatTrace c5User c5Req c5Env ∧
    (chatUser c5User c5Req c5Env).webSearches =
      (quotaGate c5User c5Env.today).2.1.webSearches :=
  ⟨(C5_webquota_denial c5User c5Req c5Env rfl (by decide) (by decide) rfl rfl rfl
      (by decide) (by decide)).1,
   (C5_webquota_denial c5User c5Req c5Env rfl (by decide) (by decide) rfl rfl rfl
      (by decide) (by decide)).2.2.1,
   (C5_webquota_denial c5User c5Req c5Env rfl (by decide) (by decide) rfl rfl rfl
      (by decide) (by decide)).2.2.2.2⟩

/-! ## C10 -/

/-- C10: when a non-premium, non-admin web-search request passes the
webSearch quota check (`webSearchesUsedToday = 0` after the gate, key
configured), the webSearches counter is incremented and the search is
called for EVERY search outcome `o` — a failing search or a no-results
response still consumes the day's web-search quota unit. -/
theorem C10_websearch_increment_unconditional (user : UserRec) (req : ChatReq) (env : Env)
    (hm : req.mode = some "web_search")
    (hmm : is_multimodal req = false)
    (ht : (stripL req.text.data).isEmpty = false)
    (hs : env.serperKey = true)
    (hp : user.isPremium = false) (ha : user.isAdmin = false)
    (hg : (quotaGate user env.today).1 = none)
    (hw : (quotaGate user env.today).2.1.webSearches = 0) :
    ∀ o : SerperOutcome,
      Event.incWebSearches ∈ chatTrace user req { env with serperOutcome := o } ∧
      Event.callSearchWeb req.text ∈ chatTrace user req { env with serperOutcome := o } ∧
      (chatUser user req { env with serperOutcome := o }).webSearches =
        (quotaGate user env.today).2.1.webSearches + 1 := by
  intro o
  have hg' : (quotaGate user ({ env with serperOutcome := o }).today).1 = none := hg
  have hpf : ((quotaGate user ({ env with serperOutcome := o }).today).2.1).isPremium
      = false := by
    rw [(quotaGate_preserves_flags user _).1, hp]
  have haf : ((quotaGate user ({ env with serperOutcome := o }).today).2.1).isAdmin
      = false := by
    rw [(quotaGate_preserves_flags user _).2, ha]
  have hw' : ((quotaGate user ({ env with serperOutcome := o }).today).2.1).webSearches
      = 0 := hw
  have hs' : ({ env with serperOutcome := o }).serperKey = true := hs
  have hcl : classifyPhase req { env with serperOutcome := o } =
      (req.mode, none, [], false) := by
    unfold classifyPhase
    rw [hm]
    exact rfl
  have hcond : ¬ ((quotaGate user ({ env with serperOutcome := o }).today).2.1).webSearches
      ≥ 1 := by
    rw [hw']
    decide
  have hwp : (webPhase req.mode req
        (quotaGate user ({ env with serperOutcome := o }).today).2.1
        { env with serperOutcome := o }).1 =
      some (search_web true req.text o) ∧
      (webPhase req.mode req
        (quotaGate user ({ env with serperOutcome := o }).today).2.1
        { env with serperOutcome := o }).2.1.webSearches =
      ((quotaGate user ({ env with serperOutcome := o }).today).2.1).webSearches + 1 ∧
      (webPhase req.mode req
        (quotaGate user ({ env with serperOutcome := o }).today).2.1
        { env with serperOutcome := o }).2.2 =
      [Event.readUser, Event.callSearchWeb req.text, Event.incWebSearches] := by
    unfold webPhase
    rw [hm, hmm, ht, hs', hpf, haf, if_neg hcond]
    exact ⟨rfl, rfl, rfl⟩
  have hgp : groqPhase req.mode (some (search_web true req.text o)) none req
      { env with serperOutcome := o } =
      (({ env with serperOutcome := o }).groqOutcome,
        [Event.callGroq "Groq (Contextual Search)"]) := by
    unfold groqPhase
    rw [hm, hmm, ht]
    exact rfl
  have hc := chat_of_gate_none user req { env with serperOutcome := o } _ _
    (gate_none_split user _ hg')
  refine ⟨?_, ?_, ?_⟩
  · unfold chatTrace
    rw [hc]
    dsimp only
    rw [hcl]
    dsimp only
    rw [if_false_bool]
    rw [hwp.2.2, hwp.1, hgp]
    dsimp only
    split <;> simp
  · unfold chatTrace
    rw [hc]
    dsimp only
    rw [hcl]
    dsimp only
    rw [if_false_bool]
    rw [hwp.2.2, hwp.1, hgp]
    dsimp only
    split <;> simp
  · unfold chatUser
    rw [hc]
    dsimp only
    rw [hcl]
    dsimp only
    rw [if_false_bool]
    rw [hwp.1, hgp]
    dsimp only
    split
    · exact hwp.2.1
    · exact hwp.2.1

theorem C10_websearch_increment_unconditional_witness :
    Event.incWebSearches ∈ chatTrace
      { isPremium := false, isAdmin := false, messages := 0, webSearches := 0,
        lastReset := 5 }
      c5Req { c5Env with serperOutcome := SerperOutcome.failure "boom" } ∧
    (chatUser
      { isPremium := false, isAdmin := false, messages := 0, webSearches := 0,
        lastReset := 5 }
      c5Req { c5Env with serperOutcome := SerperOutcome.failure "boom" }).webSearches =
      (quotaGate
        { isPremium := false, isAdmin := false, messages := 0, webSearches := 0,
          lastReset := 5 } c5Env.today).2.1.webSearches + 1 :=
  ⟨(C10_websearch_increment_unconditional
      { isPremium := false, isAdmin := false, messages := 0, webSearches := 0,
        lastReset := 5 }
      c5Req c5Env rfl (by decide) (by decide) rfl rfl rfl (by decide) (by decide)
      (SerperOutcome.failure "boom")).1,
   (C10_websearch_increment_unconditional
      { isPremium := false, isAdmin := false, messages := 0, webSearches := 0,
        lastReset := 5 }
      c5Req c5Env rfl (by decide) (by decide) rfl rfl rfl (by decide) (by decide)
      (SerperOutcome.failure "boom")).2.2⟩

/-! ## C4 -/

theorem not_multimodal_parts (req : ChatReq) (h : is_multimodal req = false) :
    hasFileData req = false ∧ strContains req.text "youtube.com" = false ∧
    strContains req.text "youtu.be" = false := by
  unfold is_multimodal at h
  simp only [PDF_KEYWORDS, List.any_nil, Bool.or_false, Bool.or_eq_false_iff] at h
  exact ⟨h.1.1, h.1.2, h.2⟩

theorem text_ne_empty (req : ChatReq) (ht : (stripL req.text.data).isEmpty = false) :
    req.text ≠ "" := by
  intro he
  rw [he] at ht
  exact absurd ht (by decide)

theorem ai_false_not_gemini (e : Event) (h : e.isAI = false) : e.isGemini = false := by
  cases e <;> simp_all [Event.isAI, Event.isGemini]

theorem ai_false_not_groq (e : Event) (h : e.isAI = false) : e.isGroq = false := by
  cases e <;> simp_all [Event.isAI, Event.isGroq]

theorem countP_zero_of_all {l : List Event} {p : Event → Bool}
    (h : ∀ e ∈ l, p e = false) : List.countP p l = 0 := by
  rw [List.countP_eq_zero]
  intro a ha
  simp [h a ha]

/-- When non-multimodal text is present and the Groq key is configured,
exactly one Groq call is attempted, whichever of the three prompt
shapes applies. -/
theorem groqPhase_attempt (mode : Option String) (webCtx libCtx : Option String)
    (req : ChatReq) (env : Env) (hmm : is_multimodal req = false)
    (ht : (stripL req.text.data).isEmpty = false) (hk : env.groqKey = true) :
    ∃ s, groqPhase mode webCtx libCtx req env = (env.groqOutcome, [Event.callGroq s]) := by
  unfold groqPhase
  rw [hmm, ht, hk]
  repeat' split
  all_goals first
    | exact ⟨_, rfl⟩
    | (next h => exact absurd rfl h)

theorem geminiPrep_go_nonempty (mode : Option String) (webCtx libCtx : Option String)
    (req : ChatReq) (env : Env) (hmm : is_multimodal req = false) (hne : req.text ≠ "") :
    ∃ parts, geminiPrep mode webCtx libCtx req env = GemPrep.go parts ∧ parts ≠ [] := by
  obtain ⟨hf, hyt, hyb⟩ := not_multimodal_parts req hmm
  unfold geminiPrep
  rw [if_neg hne]
  split
  · exact ⟨_, rfl, by simp⟩
  · split
    · exact ⟨_, rfl, by simp⟩
    · rw [hyt, hyb, hf]
      exact ⟨_, rfl, by simp⟩

theorem geminiPhase_first_ok (mode : Option String) (webCtx libCtx : Option String)
    (req : ChatReq) (env : Env) (ghist : List (String × String)) (parts : List Part)
    (hprep : geminiPrep mode webCtx libCtx req env = GemPrep.go parts)
    (hne : parts ≠ []) (t : String) (hgf : env.geminiFirst = Except.ok t) :
    ∃ a, geminiPhase mode webCtx libCtx req env ghist =
      (ChatResponse.ok t, [Event.callGemini 1 a]) := by
  have hie : parts.isEmpty = false := by
    cases parts with
    | nil => exact absurd rfl hne
    | cons x xs => rfl
  unfold geminiPhase
  rw [hprep]
  try dsimp only
  rw [hie]
  try dsimp only
  rw [hgf]
  exact ⟨_, rfl⟩

theorem geminiPhase_retry_trace (mode : Option String) (webCtx libCtx : Option String)
    (req : ChatReq) (env : Env) (ghist : List (String × String)) (parts : List Part)
    (hprep : geminiPrep mode webCtx libCtx req env = GemPrep.go parts)
    (hne : parts ≠ []) (e1 : String) (hgf : env.geminiFirst = Except.error e1) :
    ∃ a ps, geminiPhase mode webCtx libCtx req env ghist =
      ((match env.geminiRetry with
        | Except.ok t => ChatResponse.ok t
        | Except.error _ => ChatResponse.ok apologyMsg),
       [Event.callGemini 1 a, Event.callGemini 2 (GeminiArg.bare ps)]) := by
  have hie : parts.isEmpty = false := by
    cases parts with
    | nil => exact absurd rfl hne
    | cons x xs => rfl
  unfold geminiPhase
  rw [hprep]
  try dsimp only
  rw [hie]
  try dsimp only
  rw [hgf]
  cases env.geminiRetry <;> exact ⟨_, _, rfl⟩

/-- C4: the dispatcher tries Groq first and stops at the first
non-empty text: a non-empty Groq result is returned as-is and Gemini is
never called; when Groq fails (returns nothing) and the first Gemini
call succeeds, the response equals Gemini's output and Groq was
attempted exactly once; when the first Gemini call also raises, one
retry is made with the bare prompt parts — no conversational history —
and if the retry raises too the response is the fixed apology string
(independent of both error texts, so no raw provider error leaks).
Scoped to requests that reach the dispatcher: the classification phase
did not abort on the library-search crash (`habort`). -/
theorem C4_provider_fallback (user : UserRec) (req : ChatReq) (env : Env)
    (hmm : is_multimodal req = false)
    (ht : (stripL req.text.data).isEmpty = false)
    (hg : (quotaGate user env.today).1 = none)
    (hk : env.groqKey = true)
    (habort : (classifyPhase req env).2.2.2 = false) :
    (∀ t, env.groqOutcome = some t → t ≠ "" →
      chatResp user req env = ChatResponse.ok t ∧
      (∀ e ∈ chatTrace user req env, e.isGemini = false)) ∧
    (∀ t, env.groqOutcome = none → env.geminiFirst = Except.ok t →
      chatResp user req env = ChatResponse.ok t ∧
      List.countP Event.isGroq (chatTrace user req env) = 1) ∧
    (∀ e1, env.groqOutcome = none → env.geminiFirst = Except.error e1 →
      (∃ ps, Event.callGemini 2 (GeminiArg.bare ps) ∈ chatTrace user req env) ∧
      (∀ t, env.geminiRetry = Except.ok t → chatResp user req env = ChatResponse.ok t) ∧
      (∀ e2, env.geminiRetry = Except.error e2 →
        chatResp user req env = ChatResponse.ok apologyMsg)) := by
  have hne : req.text ≠ "" := text_ne_empty req ht
  have hc := chat_of_gate_none user req env _ _ (gate_none_split user env.today hg)
  obtain ⟨s, hgp⟩ := groqPhase_attempt (classifyPhase req env).1
    (webPhase (classifyPhase req env).1 req (quotaGate user env.today).2.1 env).1
    (classifyPhase req env).2.1 req env hmm ht hk
  obtain ⟨parts, hprep, hpne⟩ := geminiPrep_go_nonempty (classifyPhase req env).1
    (webPhase (classifyPhase req env).1 req (quotaGate user env.today).2.1 env).1
    (classifyPhase req env).2.1 req env hmm hne
  refine ⟨?_, ?_, ?_⟩
  · intro t hgo htne
    have hpy : pyTruthy env.groqOutcome = some t := by
      rw [hgo]
      simp [pyTruthy, htne]
    constructor
    · unfold chatResp
      rw [hc]
      dsimp only
      rw [habort, if_false_bool]
      rw [hgp]
      dsimp only
      rw [hpy]
    · unfold chatTrace
      rw [hc]
      dsimp only
      rw [habort, if_false_bool]
      rw [hgp]
      dsimp only
      rw [hpy]
      dsimp only
      intro e he
      rcases mem_chunks4 he with he | he | he | he
      · exact ai_false_not_gemini _ (quotaGate_trace_noAI user env.today e he)
      · exact ai_false_not_gemini _ (classifyPhase_trace_noAI req env e he)
      · exact ai_false_not_gemini _ (webPhase_trace_noAI _ req _ env e he)
      · have h3 := List.mem_singleton.mp he
        subst h3
        rfl
  · intro t hgo hgf
    have hpy : pyTruthy env.groqOutcome = none := by
      rw [hgo]
      rfl
    obtain ⟨a, hgem⟩ := geminiPhase_first_ok (classifyPhase req env).1
      (webPhase (classifyPhase req env).1 req (quotaGate user env.today).2.1 env).1
      (classifyPhase req env).2.1 req env (historyPhase req env).1 parts hprep hpne t hgf
    constructor
    · unfold chatResp
      rw [hc]
      dsimp only
      rw [habort, if_false_bool]
      rw [hgp]
      dsimp only
      rw [hpy]
      dsimp only
      rw [hgem]
    · unfold chatTrace
      rw [hc]
      dsimp only
      rw [habort, if_false_bool]
      rw [hgp]
      dsimp only
      rw [hpy]
      dsimp only
      rw [hgem]
      dsimp only
      rw [List.countP_append, List.countP_append, List.countP_append, List.countP_append]
      rw [countP_zero_of_all (fun e he =>
            ai_false_not_groq e (quotaGate_trace_noAI user env.today e he)),
          countP_zero_of_all (fun e he =>
            ai_false_not_groq e (classifyPhase_trace_noAI req env e he)),
          countP_zero_of_all (fun e he =>
            ai_false_not_groq e (webPhase_trace_noAI _ req _ env e he))]
      simp [List.countP_cons, Event.isGroq]
  · intro e1 hgo hgf
    have hpy : pyTruthy env.groqOutcome = none := by
      rw [hgo]
      rfl
    obtain ⟨a, ps, hgem⟩ := geminiPhase_retry_trace (classifyPhase req env).1
      (webPhase (classifyPhase req env).1 req (quotaGate user env.today).2.1 env).1
      (classifyPhase req env).2.1 req env (historyPhase req env).1 parts hprep hpne e1 hgf
    refine ⟨⟨ps, ?_⟩, ?_, ?_⟩
    · unfold chatTrace
      rw [hc]
      dsimp only
      rw [habort, if_false_bool]
      rw [hgp]
      dsimp only
      rw [hpy]
      dsimp only
      rw [hgem]
      simp
    · intro t hrt
      unfold chatResp
      rw [hc]
      dsimp only
      rw [habort, if_false_bool]
      rw [hgp]
      dsimp only
      rw [hpy]
      dsimp only
      rw [hgem]
      dsimp only
      rw [hrt]
    · intro e2 hr2
      unfold chatResp
      rw [hc]
      dsimp only
      rw [habort, if_false_bool]
      rw [hgp]
      dsimp only
      rw [hpy]
      dsimp only
      rw [hgem]
      dsimp only
      rw [hr2]

/-- A premium user and a plain short chat request for the dispatcher
scenarios. -/
def c4User : UserRec :=
  { isPremium := true, isAdmin := false, messages := 0, webSearches := 0, lastReset := 0 }

def c4Req : ChatReq :=
  { text := "tell me a story", fileData := none, fileType := "", isTemporary := false,
    mode := some "chat" }

/-- Primary fails, secondary healthy. -/
def c4EnvA : Env :=
  { defEnv with
    groqKey := true
    groqOutcome := none
    geminiFirst := Except.ok "gemini says hi" }

/-- Both providers fail, retry fails too. -/
def c4EnvB : Env :=
  { defEnv with
    groqKey := true
    groqOutcome := none
    geminiFirst := Except.error "boom1"
    geminiRetry := Except.error "boom2" }

/-- Primary succeeds. -/
def c4EnvC : Env :=
  { defEnv with
    groqKey := true
    groqOutcome := some "groq answer" }

theorem C4_provider_fallback_witness :
    (chatResp c4User c4Req c4EnvC = ChatResponse.ok "groq answer") ∧
    (chatResp c4User c4Req c4EnvA = ChatResponse.ok "gemini says hi") ∧
    (List.countP Event.isGroq (chatTrace c4User c4Req c4EnvA) = 1) ∧
    (chatResp c4User c4Req c4EnvB = ChatResponse.ok apologyMsg) :=
  ⟨((C4_provider_fallback c4User c4Req c4EnvC (by decide) (by decide) (by decide) rfl
      (by decide)).1 "groq answer" rfl (by decide)).1,
   ((C4_provider_fallback c4User c4Req c4EnvA (by decide) (by decide) (by decide) rfl
      (by decide)).2.1 "gemini says hi" rfl rfl).1,
   ((C4_provider_fallback c4User c4Req c4EnvA (by decide) (by decide) (by decide) rfl
      (by decide)).2.1 "gemini says hi" rfl rfl).2,
   (((C4_provider_fallback c4User c4Req c4EnvB (by decide) (by decide) (by decide) rfl
      (by decide)).2.2 "boom1" rfl rfl).2.2 "boom2" rfl)⟩

/-! ## C8 -/

theorem not_mem_of_noCounter {l : List Event} (h : ∀ e ∈ l, e.isCounter = false)
    (a : Event) (ha : a.isCounter = true) : a ∉ l := by
  intro hm
  rw [h a hm] at ha
  exact Bool.noConfusion ha

theorem classifyPhase_noMsgInc (req : ChatReq) (env : Env) :
    Event.incMessages ∉ (classifyPhase req env).2.2.1 := by
  rcases classifyPhase_events req env with h | h <;> rw [h] <;> simp

theorem classifyPhase_noWebInc (req : ChatReq) (env : Env) :
    Event.incWebSearches ∉ (classifyPhase req env).2.2.1 := by
  rcases classifyPhase_events req env with h | h <;> rw [h] <;> simp

theorem webPhase_webInc_le (mode : Option String) (req : ChatReq) (user : UserRec)
    (env : Env) : List.count Event.incWebSearches (webPhase mode req user env).2.2 ≤ 1 := by
  rcases webPhase_events mode req user env with h | h | h | h <;> rw [h] <;>
    simp [List.count_cons, List.count_nil]

theorem webPhase_noMsgInc (mode : Option String) (req : ChatReq) (user : UserRec)
    (env : Env) : Event.incMessages ∉ (webPhase mode req user env).2.2 := by
  rcases webPhase_events mode req user env with h | h | h | h <;> rw [h] <;> simp

/-- The counter events of the trace are exactly those of the quota gate,
the classification, and the web-search block — the provider calls
contribute none. -/
theorem filter_counter_append_nil {pre post : List Event}
    (h : ∀ e ∈ post, e.isCounter = false) :
    List.filter Event.isCounter (pre ++ post) = List.filter Event.isCounter pre := by
  have hnil : List.filter Event.isCounter post = [] :=
    List.filter_eq_nil_iff.mpr (fun e he => by simp [h e he])
  rw [List.filter_append, hnil, List.append_nil]

theorem chatTrace_filter_counter (user : UserRec) (req : ChatReq) (env : Env)
    (u1 : UserRec) (ev1 : List Event)
    (hq : quotaGate user env.today = (none, u1, ev1))
    (habort : (classifyPhase req env).2.2.2 = false) :
    List.filter Event.isCounter (chatTrace user req env) =
      List.filter Event.isCounter (ev1 ++ (classifyPhase req env).2.2.1 ++
        (webPhase (classifyPhase req env).1 req u1 env).2.2) := by
  unfold chatTrace
  rw [chat_of_gate_none user req env u1 ev1 hq]
  dsimp only
  rw [habort, if_false_bool]
  split
  · exact filter_counter_append_nil (fun e he =>
      groqPhase_trace_noCounter _ _ _ req env e he)
  · rw [List.append_assoc]
    exact filter_counter_append_nil (fun e he => by
      rcases List.mem_append.mp he with he | he
      · exact groqPhase_trace_noCounter _ _ _ req env e he
      · exact geminiPhase_trace_noCounter _ _ _ req env _ e he)

/-- C8: within a single request each quota counter is incremented at
most once; every increment happens strictly before any AI provider call
in the trace; and the counter events of the trace do not depend on the
outcomes of the AI calls (no rollback, no repeat based on the result).
This covers the library-search crash path too: there the trace stops at
the classification events, which hold no counter increments. -/
theorem C8_quota_once_before_ai (user : UserRec) (req : ChatReq) (env : Env) :
    List.count Event.incMessages (chatTrace user req env) ≤ 1 ∧
    List.count Event.incWebSearches (chatTrace user req env) ≤ 1 ∧
    quotaBeforeAI (chatTrace user req env) = true ∧
    (∀ g : Option String, ∀ f r : Except String String,
      List.filter Event.isCounter (chatTrace user req
        { env with groqOutcome := g, geminiFirst := f, geminiRetry := r }) =
      List.filter Event.isCounter (chatTrace user req env)) := by
  cases hg : (quotaGate user env.today).1 with
  | some resp =>
    have hq := gate_some_split user env.today resp hg
    have hc := chat_of_gate_some user req env _ _ _ hq
    have htr : chatTrace user req env = (quotaGate user env.today).2.2 := by
      unfold chatTrace
      rw [hc]
    refine ⟨?_, ?_, ?_, ?_⟩
    · rw [htr]
      exact quotaGate_trace_msgCount user env.today
    · rw [htr]
      rw [List.count_eq_zero.mpr (quotaGate_trace_noWebInc user env.today)]
      decide
    · rw [htr]
      have h0 := quotaBeforeAI_append (quotaGate user env.today).2.2 []
        (quotaGate_trace_noAI user env.today) (by simp)
      rwa [List.append_nil] at h0
    · intro g f r
      have hq2 : quotaGate user
          ({ env with groqOutcome := g, geminiFirst := f, geminiRetry := r }).today =
          (some resp, (quotaGate user env.today).2.1, (quotaGate user env.today).2.2) := hq
      have hc2 := chat_of_gate_some user req
        { env with groqOutcome := g, geminiFirst := f, geminiRetry := r } _ _ _ hq2
      have htr2 : chatTrace user req
          { env with groqOutcome := g, geminiFirst := f, geminiRetry := r } =
          (quotaGate user env.today).2.2 := by
        unfold chatTrace
        rw [hc2]
      rw [htr, htr2]
  | none =>
    have hq := gate_none_split user env.today hg
    refine ⟨?_, ?_, ?_, ?_⟩
    · unfold chatTrace
      rw [chat_of_gate_none user req env _ _ hq]
      dsimp only
      cases habort : (classifyPhase req env).2.2.2 with
      | true =>
        rw [if_true_bool]
        dsimp only
        rw [List.count_append]
        rw [List.count_eq_zero.mpr (classifyPhase_noMsgInc req env)]
        simpa using quotaGate_trace_msgCount user env.today
      | false =>
        rw [if_false_bool]
        split
        · rw [List.count_append, List.count_append, List.count_append]
          rw [List.count_eq_zero.mpr (classifyPhase_noMsgInc req env),
              List.count_eq_zero.mpr (webPhase_noMsgInc _ req _ env),
              List.count_eq_zero.mpr
                (not_mem_of_noCounter (groqPhase_trace_noCounter _ _ _ req env)
                  Event.incMessages rfl)]
          simpa using quotaGate_trace_msgCount user env.today
        · rw [List.count_append, List.count_append, List.count_append, List.count_append]
          rw [List.count_eq_zero.mpr (classifyPhase_noMsgInc req env),
              List.count_eq_zero.mpr (webPhase_noMsgInc _ req _ env),
              List.count_eq_zero.mpr
                (not_mem_of_noCounter (groqPhase_trace_noCounter _ _ _ req env)
                  Event.incMessages rfl),
              List.count_eq_zero.mpr
                (not_mem_of_noCounter (geminiPhase_trace_noCounter _ _ _ req env _)
                  Event.incMessages rfl)]
          simpa using quotaGate_trace_msgCount user env.today
    · unfold chatTrace
      rw [chat_of_gate_none user req env _ _ hq]
      dsimp only
      cases habort : (classifyPhase req env).2.2.2 with
      | true =>
        rw [if_true_bool]
        dsimp only
        rw [List.count_append]
        rw [List.count_eq_zero.mpr (quotaGate_trace_noWebInc user env.today),
            List.count_eq_zero.mpr (classifyPhase_noWebInc req env)]
        decide
      | false =>
        rw [if_false_bool]
        split
        · rw [List.count_append, List.count_append, List.count_append]
          rw [List.count_eq_zero.mpr (quotaGate_trace_noWebInc user env.today),
              List.count_eq_zero.mpr (classifyPhase_noWebInc req env),
              List.count_eq_zero.mpr
                (not_mem_of_noCounter (groqPhase_trace_noCounter _ _ _ req env)
                  Event.incWebSearches rfl)]
          simpa using webPhase_webInc_le (classifyPhase req env).1 req
            (quotaGate user env.today).2.1 env
        · rw [List.count_append, List.count_append, List.count_append, List.count_append]
          rw [List.count_eq_zero.mpr (quotaGate_trace_noWebInc user env.today),
              List.count_eq_zero.mpr (classifyPhase_noWebInc req env),
              List.count_eq_zero.mpr
                (not_mem_of_noCounter (groqPhase_trace_noCounter _ _ _ req env)
                  Event.incWebSearches rfl),
              List.count_eq_zero.mpr
                (not_mem_of_noCounter (geminiPhase_trace_noCounter _ _ _ req env _)
                  Event.incWebSearches rfl)]
          simpa using webPhase_webInc_le (classifyPhase req env).1 req
            (quotaGate user env.today).2.1 env
    · unfold chatTrace
      rw [chat_of_gate_none user req env _ _ hq]
      dsimp only
      cases habort : (classifyPhase req env).2.2.2 with
      | true =>
        rw [if_true_bool]
        dsimp only
        have h0 := quotaBeforeAI_append
          ((quotaGate user env.today).2.2 ++ (classifyPhase req env).2.2.1) []
          (fun e he => by
            rcases List.mem_append.mp he with he | he
            · exact quotaGate_trace_noAI user env.today e he
            · exact classifyPhase_trace_noAI req env e he)
          (by simp)
        rwa [List.append_nil] at h0
      | false =>
        rw [if_false_bool]
        split
        · apply quotaBeforeAI_append
          · intro e he
            rcases List.mem_append.mp he with he | he
            · rcases List.mem_append.mp he with he | he
              · exact quotaGate_trace_noAI user env.today e he
              · exact classifyPhase_trace_noAI req env e he
            · exact webPhase_trace_noAI _ req _ env e he
          · intro e he
            exact groqPhase_trace_noCounter _ _ _ req env e he
        · rw [List.append_assoc]
          apply quotaBeforeAI_append
          · intro e he
            rcases List.mem_append.mp he with he | he
            · rcases List.mem_append.mp he with he | he
              · exact quotaGate_trace_noAI user env.today e he
              · exact classifyPhase_trace_noAI req env e he
            · exact webPhase_trace_noAI _ req _ env e he
          · intro e he
            rcases List.mem_append.mp he with he | he
            · exact groqPhase_trace_noCounter _ _ _ req env e he
            · exact geminiPhase_trace_noCounter _ _ _ req env _ e he
    · intro g f r
      have hq2 : quotaGate user
          ({ env with groqOutcome := g, geminiFirst := f, geminiRetry := r }).today =
          (none, (quotaGate user env.today).2.1, (quotaGate user env.today).2.2) := hq
      cases habort : (classifyPhase req env).2.2.2 with
      | false =>
        have habort2 : (classifyPhase req
            { env with groqOutcome := g, geminiFirst := f, geminiRetry := r }).2.2.2 =
            false := habort
        have hfc := chatTrace_filter_counter user req env _ _ hq habort
        have hfc2 := chatTrace_filter_counter user req
          { env with groqOutcome := g, geminiFirst := f, geminiRetry := r } _ _ hq2 habort2
        rw [hfc, hfc2]
        rfl
      | true =>
        have habort2 : (classifyPhase req
            { env with groqOutcome := g, geminiFirst := f, geminiRetry := r }).2.2.2 =
            true := habort
        have h1 : chatTrace user req env =
            (quotaGate user env.today).2.2 ++ (classifyPhase req env).2.2.1 := by
          unfold chatTrace
          rw [chat_of_gate_none user req env _ _ hq]
          dsimp only
          rw [habort, if_true_bool]
        have h2 : chatTrace user req
            { env with groqOutcome := g, geminiFirst := f, geminiRetry := r } =
            (quotaGate user env.today).2.2 ++ (classifyPhase req
              { env with groqOutcome := g, geminiFirst := f, geminiRetry := r }).2.2.1 := by
          unfold chatTrace
          rw [chat_of_gate_none user req
            { env with groqOutcome := g, geminiFirst := f, geminiRetry := r } _ _ hq2]
          dsimp only
          rw [habort2, if_true_bool]
        rw [h1, h2]
        rfl

theorem C8_quota_once_before_ai_witness :
    quotaBeforeAI (chatTrace c5User c5Req c5Env) = true ∧
    List.count Event.incMessages (chatTrace c5User c5Req c5Env) ≤ 1 :=
  ⟨(C8_quota_once_before_ai c5User c5Req c5Env).2.2.1,
   (C8_quota_once_before_ai c5User c5Req c5Env).1⟩

end Sofia
